import Mathlib

/-!
Verification of the TrustCotaSys procurement backend.

The definitions below are a shallow embedding of the server code:
  * the Drizzle schema (shared/schema.ts),
  * the storage layer class DatabaseStorage (server/storage.ts),
  * the HTTP route handlers of registerRoutes (server/routes.ts).

Modelling conventions:
  * machine time is an `Int` of milliseconds (JS Date.now());
  * SQL `decimal` columns are modelled as exact rationals (`Rat`);
  * JS `NaN` results of parseInt/parseFloat are modelled as `none`;
  * database rows live in Lean lists, inserts append at the end;
  * `gen_random_uuid()` is modelled by a fresh-id counter in the state;
  * spreadsheet cell values are modelled as strings (the XLSX parse
    output); a missing key is an absent entry of the association list.
-/

namespace TrustCota

/-! ## JS-flavoured string utilities

These mirror the JavaScript string operations the routes use:
`trim`, `includes`, `toUpperCase`, `split('-')`, `padStart`,
`parseInt`, `parseFloat`, `replace(/[^\d.,]/g, '')`, `replace(',', '.')`,
and the lexicographic string order used by ORDER BY ... DESC.
-/

def isWsChar (c : Char) : Bool :=
  c = ' ' || c = '\t' || c = '\n' || c = '\r'

def dropLeadingWs : List Char → List Char
  | [] => []
  | c :: t => if isWsChar c then dropLeadingWs t else c :: t

def dropTrailingWs (l : List Char) : List Char :=
  (dropLeadingWs l.reverse).reverse

/-- JS `String.prototype.trim`. -/
def jsTrim (s : String) : String :=
  ⟨dropTrailingWs (dropLeadingWs s.data)⟩

def startsWithChars : List Char → List Char → Bool
  | [], _ => true
  | _ :: _, [] => false
  | a :: as, b :: bs => a = b && startsWithChars as bs

/-- JS `b.startsWith a` / SQL `LIKE a || wildcard`. -/
def startsWith (a b : String) : Bool :=
  startsWithChars a.data b.data

def hasSubCharsAux (sub : List Char) : List Char → Bool
  | [] => startsWithChars sub []
  | c :: t => startsWithChars sub (c :: t) || hasSubCharsAux sub t

/-- JS `s.includes sub`. -/
def jsIncludes (s sub : String) : Bool :=
  hasSubCharsAux sub.data s.data

def asciiUpperChar (c : Char) : Char :=
  if 'a' ≤ c ∧ c ≤ 'z' then Char.ofNat (c.toNat - 32) else c

/-- JS `toUpperCase`, restricted to ASCII (enough for the EMPRESA/CONTATO
checks performed by the upload routes). -/
def jsToUpper (s : String) : String :=
  ⟨s.data.map asciiUpperChar⟩

/-- Lexicographic comparison of char lists by code point; this is both the
JS `<` on strings and the order the database uses for ORDER BY on the
request/order number columns. -/
def ltChars : List Char → List Char → Bool
  | [], [] => false
  | [], _ :: _ => true
  | _ :: _, [] => false
  | a :: as, b :: bs => if a = b then ltChars as bs else decide (a < b)

/-- JS `split` with a single-character separator; keeps empty segments. -/
def splitChar (sep : Char) : List Char → List (List Char)
  | [] => [[]]
  | c :: t =>
    let r := splitChar sep t
    if c = sep then [] :: r
    else
      match r with
      | [] => [[c]]
      | h :: t2 => (c :: h) :: t2

def jsSplitDash (s : String) : List String :=
  (splitChar '-' s.data).map fun l => ⟨l⟩

def digitVal (c : Char) : Option Nat :=
  if '0' ≤ c ∧ c ≤ '9' then some (c.toNat - 48) else none

def digitCh (d : Nat) : Char :=
  match d with
  | 0 => '0' | 1 => '1' | 2 => '2' | 3 => '3' | 4 => '4'
  | 5 => '5' | 6 => '6' | 7 => '7' | 8 => '8' | _ => '9'

def takeDigits : List Char → List Nat × List Char
  | [] => ([], [])
  | c :: t =>
    match digitVal c with
    | some d =>
      let r := takeDigits t
      (d :: r.1, r.2)
    | none => ([], c :: t)

def digitsToNat (ds : List Nat) : Nat :=
  ds.foldl (fun a d => a * 10 + d) 0

/-- JS `parseInt` (decimal): skip leading whitespace, optional sign, then a
maximal run of digits; `none` models `NaN`.  Hex prefixes and exponents are
not modelled (no call site feeds them). -/
def parseIntJs (s : String) : Option Int :=
  let cs := dropLeadingWs s.data
  let neg : Bool := cs.head? = some '-'
  let cs2 := if cs.head? = some '-' ∨ cs.head? = some '+' then cs.tail else cs
  let ds := (takeDigits cs2).1
  if ds.isEmpty then none
  else some (if neg then -(digitsToNat ds : Int) else (digitsToNat ds : Int))

/-- JS `parseFloat`: skip leading whitespace, optional sign, digits, an
optional decimal point and fraction digits; `none` models `NaN`.
Exponents are not modelled (no call site feeds them). -/
def parseFloatJs (s : String) : Option Rat :=
  let cs := dropLeadingWs s.data
  let (neg, cs2) :=
    match cs with
    | '-' :: t => (true, t)
    | '+' :: t => (false, t)
    | t => (false, t)
  let (ip, rest) := takeDigits cs2
  let fp : List Nat :=
    match rest with
    | '.' :: rest2 => (takeDigits rest2).1
    | _ => []
  let ok : Bool :=
    match rest with
    | '.' :: _ => !(ip.isEmpty && fp.isEmpty)
    | _ => !ip.isEmpty
  if ok then
    -- integer part plus fraction digits scaled down, as an exact rational
    let v : Rat := mkRat (digitsToNat ip * 10 ^ fp.length + digitsToNat fp)
      (10 ^ fp.length)
    some (if neg then -v else v)
  else none

/-- JS `replace(/[^\d.,]/g, '')`: keep only digits, dots and commas. -/
def stripNonNumeric (s : String) : String :=
  ⟨s.data.filter fun c => (digitVal c).isSome || c = '.' || c = ','⟩

def replaceFirstCommaChars : List Char → List Char
  | [] => []
  | c :: t => if c = ',' then '.' :: t else c :: replaceFirstCommaChars t

/-- JS `replace(',', '.')` (first occurrence only). -/
def replaceFirstComma (s : String) : String :=
  ⟨replaceFirstCommaChars s.data⟩

/-- JS `s.padStart n c`. -/
def padStartStr (s : String) (n : Nat) (c : Char) : String :=
  ⟨List.replicate (n - s.data.length) c ++ s.data⟩

/-- Decimal digit characters of `n`, most significant first; the first
argument is recursion fuel (`fuel ≥ n` suffices, and the empty list comes
back for `n = 0`). -/
def natToCharsAux : Nat → Nat → List Char
  | 0, _ => []
  | _ + 1, 0 => []
  | fuel + 1, n => natToCharsAux fuel (n / 10) ++ [digitCh (n % 10)]

/-- Decimal rendering of a natural number, as JS `Number.prototype.toString`
produces for the integer sequence counters. -/
def natToStr (n : Nat) : String :=
  if n = 0 then "0" else ⟨natToCharsAux n n⟩

/-- JS `Array.prototype.join(sep)`. -/
def joinSep (sep : String) : List String → String
  | [] => ""
  | [s] => s
  | s :: t => s ++ sep ++ joinSep sep t

/-- Maximum of a string list under `ltChars`: the row produced by
`ORDER BY column DESC LIMIT 1`. -/
def maxString (l : List String) : Option String :=
  l.foldl
    (fun acc s =>
      match acc with
      | none => some s
      | some b => if ltChars b.data s.data then some s else some b)
    none

/-! ## Data model (shared/schema.ts)

One Lean structure per table, with the same column names.  `decimal`
columns carry exact rationals, `timestamp` columns carry millisecond
integers, nullable columns carry `Option`s. -/

/-- `quotationStatusEnum` of the schema. -/
inductive QuotationStatus
  | rascunho
  | em_cotacao
  | aguardando_aprovacao
  | aprovado
  | rejeitado
  | cancelado
deriving DecidableEq, Repr

/-- `supplierStatusEnum` of the schema. -/
inductive SupplierStatus
  | ativo
  | inativo
  | pendente
  | bloqueado
deriving DecidableEq, Repr

/-- Table `suppliers`. -/
structure Supplier where
  id : String
  name : String
  cnpj : Option String
  email : Option String
  phone : Option String
  address : Option String
  contactPerson : Option String
  status : SupplierStatus
  score : Rat
  totalQuotations : Int
  averageDeliveryTime : Option Int
  notes : Option String
  createdAt : Int
  updatedAt : Int
deriving DecidableEq, Repr

/-- Table `quotation_requests`. -/
structure QuotationRequest where
  id : String
  requestNumber : String
  requesterId : String
  title : String
  description : Option String
  department : Option String
  costCenter : Option String
  urgency : String
  expectedDeliveryDate : Option Int
  status : QuotationStatus
  totalBudget : Option Rat
  approvedAmount : Option Rat
  approverId : Option String
  approvedAt : Option Int
  notes : Option String
  createdAt : Int
  updatedAt : Int
deriving DecidableEq, Repr

/-- Table `supplier_quotations`. -/
structure SupplierQuotation where
  id : String
  quotationRequestId : String
  supplierId : String
  quotationNumber : Option String
  validUntil : Option Int
  deliveryTime : Option Int
  paymentTerms : Option String
  totalAmount : Rat
  observations : Option String
  isSelected : Bool
  submittedAt : Int
deriving DecidableEq, Repr

/-- Table `purchase_orders`. -/
structure PurchaseOrder where
  id : String
  orderNumber : String
  quotationRequestId : String
  supplierId : String
  totalAmount : Rat
  deliveryAddress : Option String
  expectedDeliveryDate : Option Int
  status : String
  createdAt : Int
  updatedAt : Int
deriving DecidableEq, Repr

/-- Table `audit_logs` (the `changes` JSON payload is kept as an opaque
string; no claim inspects it). -/
structure AuditLog where
  id : String
  userId : Option String
  action : String
  entityType : String
  entityId : String
  changes : String
  createdAt : Int
deriving DecidableEq, Repr

/-- The database state the storage layer acts on.  `nextId` models the
`gen_random_uuid()` id generator. -/
structure DB where
  requests : List QuotationRequest
  quotations : List SupplierQuotation
  orders : List PurchaseOrder
  suppliers : List Supplier
  logs : List AuditLog
  nextId : Nat
deriving DecidableEq, Repr

def freshId (db : DB) : String :=
  "id-" ++ natToStr db.nextId

/-! ## Storage layer (class DatabaseStorage of server/storage.ts) -/

/-- `DatabaseStorage.getQuotationRequest`. -/
def getQuotationRequest (db : DB) (id : String) : Option QuotationRequest :=
  db.requests.find? fun r => r.id = id

/-- `DatabaseStorage.getSupplierQuotations` (all quotations of a request). -/
def getSupplierQuotations (db : DB) (quotationRequestId : String) :
    List SupplierQuotation :=
  db.quotations.filter fun q => q.quotationRequestId = quotationRequestId

/-- `DatabaseStorage.getSupplierQuotation`. -/
def getSupplierQuotation (db : DB) (id : String) : Option SupplierQuotation :=
  db.quotations.find? fun q => q.id = id

/-- Stable insertion sort, descending on a key: the `ORDER BY key DESC`
of the storage layer's list queries. -/
def insertDescBy (key : α → Int) (x : α) : List α → List α
  | [] => [x]
  | y :: t => if key y < key x then x :: y :: t else y :: insertDescBy key x t

def sortDescBy (key : α → Int) : List α → List α
  | [] => []
  | x :: t => insertDescBy key x (sortDescBy key t)

/-- `DatabaseStorage.getSuppliers` (`ORDER BY createdAt DESC`). -/
def getSuppliers (db : DB) : List Supplier :=
  sortDescBy (fun s => s.createdAt) db.suppliers

/-- `DatabaseStorage.createAuditLog`. -/
def createAuditLog (db : DB) (userId : Option String)
    (action entityType entityId changes : String) (now : Int) : DB :=
  { db with
    logs := db.logs ++
      [{ id := freshId db, userId, action, entityType, entityId, changes,
         createdAt := now }]
    nextId := db.nextId + 1 }

/-- `Partial<InsertSupplierQuotation>` as passed by
`storage.updateSupplierQuotation` call sites: `none` is a field absent
from the patch (drizzle skips `undefined` values in `.set`). -/
structure SupplierQuotationPatch where
  quotationNumber : Option (Option String) := none
  deliveryTime : Option (Option Int) := none
  paymentTerms : Option (Option String) := none
  totalAmount : Option Rat := none
  observations : Option (Option String) := none
  isSelected : Option Bool := none
deriving Repr

def applyQuotationPatch (p : SupplierQuotationPatch) (q : SupplierQuotation) :
    SupplierQuotation :=
  { q with
    quotationNumber := p.quotationNumber.getD q.quotationNumber
    deliveryTime := p.deliveryTime.getD q.deliveryTime
    paymentTerms := p.paymentTerms.getD q.paymentTerms
    totalAmount := p.totalAmount.getD q.totalAmount
    observations := p.observations.getD q.observations
    isSelected := p.isSelected.getD q.isSelected }

/-- `DatabaseStorage.updateSupplierQuotation` (no `updatedAt` column on
this table). -/
def updateSupplierQuotation (db : DB) (id : String)
    (p : SupplierQuotationPatch) : DB :=
  { db with
    quotations := db.quotations.map fun q =>
      if q.id = id then applyQuotationPatch p q else q }

/-- `Partial<InsertQuotationRequest>` as passed by the route handlers. -/
structure QuotationRequestPatch where
  status : Option QuotationStatus := none
  totalBudget : Option (Option Rat) := none
  approvedAmount : Option (Option Rat) := none
  approverId : Option (Option String) := none
  approvedAt : Option (Option Int) := none
  notes : Option (Option String) := none
deriving Repr

def applyRequestPatch (p : QuotationRequestPatch) (now : Int)
    (r : QuotationRequest) : QuotationRequest :=
  { r with
    status := p.status.getD r.status
    totalBudget := p.totalBudget.getD r.totalBudget
    approvedAmount := p.approvedAmount.getD r.approvedAmount
    approverId := p.approverId.getD r.approverId
    approvedAt := p.approvedAt.getD r.approvedAt
    notes := p.notes.getD r.notes
    updatedAt := now }

/-- `DatabaseStorage.updateQuotationRequest`
(`.set({ ...request, updatedAt: new Date() })`). -/
def updateQuotationRequest (db : DB) (id : String)
    (p : QuotationRequestPatch) (now : Int) : DB :=
  { db with
    requests := db.requests.map fun r =>
      if r.id = id then applyRequestPatch p now r else r }

/-! ## Sequential number generation

`DatabaseStorage.createQuotationRequest` and
`DatabaseStorage.createPurchaseOrder` both compute the next
human-readable number the same way: take the stored number that is
largest in string order among those `LIKE 'TAG-YYYYMM%'`
(`ORDER BY number DESC LIMIT 1`), parse its third dash-separated
segment with `parseInt`, and add one (sequence 1 when nothing
matches). -/

/-- `today.getFullYear().toString() + (today.getMonth() + 1).toString()
.padStart(2, '0')`; `month` is already the 1-based month. -/
def yearMonthStr (year month : Nat) : String :=
  natToStr year ++ padStartStr (natToStr month) 2 '0'

def intToStrJs (n : Int) : String :=
  if n < 0 then "-" ++ natToStr n.natAbs else natToStr n.natAbs

/-- The shared number generator.  A `NaN` sequence (unparseable stored
number) renders as the literal segment `NaN`, as JS string interpolation
would. -/
def generateNumber (tag : String) (existing : List String)
    (year month : Nat) : String :=
  let yearMonth := yearMonthStr year month
  match maxString (existing.filter fun s =>
      startsWith (tag ++ "-" ++ yearMonth) s) with
  | none => tag ++ "-" ++ yearMonth ++ "-" ++ padStartStr (natToStr 1) 3 '0'
  | some last =>
    match parseIntJs (((jsSplitDash last).get? 2).getD "") with
    | none => tag ++ "-" ++ yearMonth ++ "-NaN"
    | some lastSequence =>
      tag ++ "-" ++ yearMonth ++ "-" ++
        padStartStr (intToStrJs (lastSequence + 1)) 3 '0'

/-! ## Insert payloads and insert operations -/

/-- `InsertQuotationRequest` (insert schema: id, requestNumber and the
audit timestamps omitted); `none` on a defaulted column means the column
default applies. -/
structure InsertQuotationRequest where
  requesterId : String
  title : String
  description : Option String := none
  department : Option String := none
  costCenter : Option String := none
  urgency : Option String := none
  expectedDeliveryDate : Option Int := none
  status : Option QuotationStatus := none
  totalBudget : Option Rat := none
  approvedAmount : Option Rat := none
  approverId : Option String := none
  approvedAt : Option Int := none
  notes : Option String := none
deriving Repr

/-- `DatabaseStorage.createQuotationRequest`: number generation followed
by the insert.  `year`/`month` stand for `new Date()`'s current fields. -/
def createQuotationRequest (db : DB) (p : InsertQuotationRequest)
    (now : Int) (year month : Nat) : DB × QuotationRequest :=
  let requestNumber :=
    generateNumber "REQ" (db.requests.map fun r => r.requestNumber) year month
  let r : QuotationRequest :=
    { id := freshId db
      requestNumber
      requesterId := p.requesterId
      title := p.title
      description := p.description
      department := p.department
      costCenter := p.costCenter
      urgency := p.urgency.getD "normal"
      expectedDeliveryDate := p.expectedDeliveryDate
      status := p.status.getD .rascunho
      totalBudget := p.totalBudget
      approvedAmount := p.approvedAmount
      approverId := p.approverId
      approvedAt := p.approvedAt
      notes := p.notes
      createdAt := now
      updatedAt := now }
  ({ db with requests := db.requests ++ [r], nextId := db.nextId + 1 }, r)

/-- `InsertSupplierQuotation` (insert schema: id and submittedAt
omitted). -/
structure InsertSupplierQuotation where
  quotationRequestId : String
  supplierId : String
  quotationNumber : Option String := none
  validUntil : Option Int := none
  deliveryTime : Option Int := none
  paymentTerms : Option String := none
  totalAmount : Rat
  observations : Option String := none
  isSelected : Option Bool := none
deriving Repr

/-- `DatabaseStorage.createSupplierQuotation`. -/
def createSupplierQuotation (db : DB) (p : InsertSupplierQuotation)
    (now : Int) : DB × SupplierQuotation :=
  let q : SupplierQuotation :=
    { id := freshId db
      quotationRequestId := p.quotationRequestId
      supplierId := p.supplierId
      quotationNumber := p.quotationNumber
      validUntil := p.validUntil
      deliveryTime := p.deliveryTime
      paymentTerms := p.paymentTerms
      totalAmount := p.totalAmount
      observations := p.observations
      isSelected := p.isSelected.getD false
      submittedAt := now }
  ({ db with quotations := db.quotations ++ [q], nextId := db.nextId + 1 }, q)

/-- `InsertSupplier`. -/
structure InsertSupplier where
  name : String
  cnpj : Option String := none
  email : Option String := none
  phone : Option String := none
  address : Option String := none
  contactPerson : Option String := none
  status : Option SupplierStatus := none
  score : Option Rat := none
  totalQuotations : Option Int := none
  averageDeliveryTime : Option Int := none
  notes : Option String := none
deriving Repr

/-- `DatabaseStorage.createSupplier`. -/
def createSupplier (db : DB) (p : InsertSupplier) (now : Int) :
    DB × Supplier :=
  let s : Supplier :=
    { id := freshId db
      name := p.name
      cnpj := p.cnpj
      email := p.email
      phone := p.phone
      address := p.address
      contactPerson := p.contactPerson
      status := p.status.getD .ativo
      score := p.score.getD 0
      totalQuotations := p.totalQuotations.getD 0
      averageDeliveryTime := p.averageDeliveryTime
      notes := p.notes
      createdAt := now
      updatedAt := now }
  ({ db with suppliers := db.suppliers ++ [s], nextId := db.nextId + 1 }, s)

/-- `InsertPurchaseOrder` (insert schema: id and orderNumber omitted). -/
structure InsertPurchaseOrder where
  quotationRequestId : String
  supplierId : String
  totalAmount : Rat
  deliveryAddress : Option String := none
  expectedDeliveryDate : Option Int := none
  status : Option String := none
deriving Repr

/-- `DatabaseStorage.createPurchaseOrder`: number generation followed by
the insert. -/
def createPurchaseOrder (db : DB) (p : InsertPurchaseOrder)
    (now : Int) (year month : Nat) : DB × PurchaseOrder :=
  let orderNumber :=
    generateNumber "PO" (db.orders.map fun o => o.orderNumber) year month
  let o : PurchaseOrder :=
    { id := freshId db
      orderNumber
      quotationRequestId := p.quotationRequestId
      supplierId := p.supplierId
      totalAmount := p.totalAmount
      deliveryAddress := p.deliveryAddress
      expectedDeliveryDate := p.expectedDeliveryDate
      status := p.status.getD "pendente"
      createdAt := now
      updatedAt := now }
  ({ db with orders := db.orders ++ [o], nextId := db.nextId + 1 }, o)

/-! ## Route handlers (registerRoutes, server/routes.ts)

Side effects that do not touch the database (console logging, the JSON
`changes` payloads of audit logs, outbound email bodies) are not
modelled; a Boolean oracle stands for whether an awaited email send
throws. -/

/-- POST `/api/quotation-requests/:id/approve`. -/
def approveRoute (db : DB) (userId reqId : String)
    (approvedAmount : Option Rat) (now : Int) :
    DB × Option QuotationRequest :=
  let db1 := updateQuotationRequest db reqId
    { status := some .aprovado
      approverId := some (some userId)
      approvedAmount := approvedAmount.map some
      approvedAt := some (some now) } now
  let request := db1.requests.find? fun r => r.id = reqId
  let db2 := createAuditLog db1 (some userId) "approve" "quotation_request"
    reqId "status=aprovado" now
  -- emailService.sendApprovalNotification: caught, no database effect
  (db2, request)

/-- POST `/api/quotation-requests/:id/reject`. -/
def rejectRoute (db : DB) (userId reqId : String)
    (rejectionReason : Option String) (now : Int) :
    DB × Option QuotationRequest :=
  let db1 := updateQuotationRequest db reqId
    { status := some .rejeitado
      approverId := some (some userId)
      notes := rejectionReason.map some } now
  let request := db1.requests.find? fun r => r.id = reqId
  let db2 := createAuditLog db1 (some userId) "reject" "quotation_request"
    reqId "status=rejeitado" now
  (db2, request)

/-- POST `/api/supplier-quotations/:id/select`.  The error value is the
HTTP status code. -/
def selectSupplierQuotationRoute (db : DB) (userId qid : String)
    (now : Int) : Except Nat (DB × Option SupplierQuotation) :=
  match getSupplierQuotation db qid with
  | none => .error 404
  | some quotation =>
    -- Unselect all other quotations for this request
    let allQuotations := getSupplierQuotations db quotation.quotationRequestId
    let db1 := allQuotations.foldl
      (fun d q =>
        if q.id ≠ qid then updateSupplierQuotation d q.id { isSelected := some false }
        else d)
      db
    -- Select this quotation
    let db2 := updateSupplierQuotation db1 qid { isSelected := some true }
    let selectedQuotation := getSupplierQuotation db2 qid
    -- Update quotation request status to aguardando_aprovacao
    let db3 := updateQuotationRequest db2 quotation.quotationRequestId
      { status := some .aguardando_aprovacao
        totalBudget := some (some quotation.totalAmount) } now
    let db4 := createAuditLog db3 (some userId) "select" "supplier_quotation"
      qid "isSelected=true" now
    .ok (db4, selectedQuotation)

/-- POST `/api/quotation-requests/:id/generate-purchase-order`.  The
error value is the HTTP status code (400 on both validation failures). -/
def generatePurchaseOrderRoute (db : DB) (userId reqId : String)
    (deliveryAddress : Option String) (now : Int) (year month : Nat) :
    Except Nat (DB × PurchaseOrder) :=
  match getQuotationRequest db reqId with
  | none => .error 400
  | some request =>
    if request.status ≠ .aprovado then .error 400
    else
      match (getSupplierQuotations db reqId).find? (fun q => q.isSelected) with
      | none => .error 400
      | some selectedQuotation =>
        let out := createPurchaseOrder db
          { quotationRequestId := reqId
            supplierId := selectedQuotation.supplierId
            totalAmount := selectedQuotation.totalAmount
            deliveryAddress := deliveryAddress
            expectedDeliveryDate :=
              -- selectedQuotation.deliveryTime ? new Date(...) : null
              -- (JS truthiness: both null and 0 take the null branch)
              match selectedQuotation.deliveryTime with
              | some dt =>
                if dt ≠ 0 then some (now + dt * (24 * 60 * 60 * 1000)) else none
              | none => none
            status := some "pendente" } now year month
        let db2 := createAuditLog out.1 (some userId) "create" "purchase_order"
          out.2.id "orderNumber,supplierId" now
        .ok (db2, out.2)

/-- Result of POST `/api/quotation-requests/:id/supplier-quotations`. -/
structure CreateQuotationOut where
  db : DB
  code : Nat
  quotation : SupplierQuotation
  /-- The suppliers the notification email was addressed to
  (`allSuppliers.filter(ativo).slice(0, 5)` when this was the first
  quotation of the request, nobody otherwise). -/
  recipients : List Supplier
  /-- False when the email send threw (the handler catches it). -/
  emailDelivered : Bool
deriving Repr

/-- POST `/api/quotation-requests/:id/supplier-quotations` on an
already-validated body (`payload.quotationRequestId` is overwritten with
the path parameter, as the handler does). -/
def createSupplierQuotationRoute (db : DB) (userId reqId : String)
    (payload : InsertSupplierQuotation) (now : Int) (emailFails : Bool) :
    CreateQuotationOut :=
  let out := createSupplierQuotation db
    { payload with quotationRequestId := reqId } now
  let db1 := out.1
  let quotation := out.2
  let db2 := createAuditLog db1 (some userId) "create" "supplier_quotation"
    quotation.id "validatedData" now
  -- Update quotation request status to em_cotacao if it's still in draft
  let request := getQuotationRequest db2 reqId
  let db3 :=
    match request with
    | some r =>
      if r.status = .rascunho then
        updateQuotationRequest db2 reqId { status := some .em_cotacao } now
      else db2
    | none => db2
  -- Send notification to other suppliers if this is the first quotation
  let allQuotations := getSupplierQuotations db3 reqId
  let recipients :=
    if allQuotations.length = 1 ∧ request.isSome then
      ((getSuppliers db3).filter fun s => s.status = .ativo).take 5
    else []
  { db := db3
    code := 201
    quotation := quotation
    recipients := recipients
    emailDelivered := !recipients.isEmpty && !emailFails }

/-! ## Spreadsheet ingestion (the two upload routes)

A parsed spreadsheet row is an association list from column header to
cell text (the output of `XLSX.utils.sheet_to_json`); an absent key is an
absent entry.  The binary XLSX parse itself and the malformed-shape
re-parse are library work upstream of the row loop and are not modelled:
the claims quantify over the rows the loop receives. -/

def SheetRow := List (String × String)

def rowLookup (row : SheetRow) (name : String) : Option String :=
  (row.find? fun kv => kv.1 = name).map fun kv => kv.2

/-- The per-row helper `getColumnValue`: first listed header whose cell is
neither missing nor the empty string. -/
def getColumnValue (row : SheetRow) : List String → Option String
  | [] => none
  | name :: rest =>
    match rowLookup row name with
    | some v => if v ≠ "" then some v else getColumnValue row rest
    | none => getColumnValue row rest

def titleNames : List String :=
  ["Título da Requisição", "Titulo da Requisição", "Título", "Titulo",
   "título", "titulo", "Title", "Nome", "Descrição do Item", "Item",
   "Material de limpeza - CCL Cajamar"]

def descriptionNames : List String :=
  ["Descrição", "Descricao", "Description", "Detalhes", "Observações",
   "Quantidade"]

def departmentNames : List String :=
  ["Departamento", "Department", "Setor", "Area", "Área"]

def costCenterNames : List String :=
  ["Centro de Custo", "Centro Custo", "Cost Center", "CC"]

def urgencyNames : List String :=
  ["Urgência", "Urgencia", "Prioridade", "Priority"]

def budgetNames : List String :=
  ["Orçamento Estimado", "Orcamento", "Budget", "Valor", "Preço", "Price"]

/-- The fallback branch of the title resolution: when a key containing
`Material de limpeza` has a non-blank value, re-find the first such key
WITHOUT the value conditions and take its cell (the handler looks the key
up twice with different predicates). -/
def titleFallback (row : SheetRow) : Option String :=
  if (row.find? fun kv =>
        jsIncludes kv.1 "Material de limpeza" && kv.2 ≠ "" &&
        jsTrim kv.2 ≠ "").isSome then
    (row.find? fun kv => jsIncludes kv.1 "Material de limpeza").map fun kv => kv.2
  else none

def resolveTitle (row : SheetRow) : Option String :=
  match getColumnValue row titleNames with
  | some v => some v
  | none => titleFallback row

/-- The skip condition on the trimmed title (`!title ||
title.includes('EMPRESA:') || ... || title.length < 3`). -/
def titleSkip (title : String) : Bool :=
  title = "" || jsIncludes title "EMPRESA:" || jsIncludes title "CONTATO:" ||
  jsIncludes title "TELEFONE:" || jsIncludes title "EMAIL:" ||
  jsIncludes title "DATA:" || title.length < 3

/-- Budget coercion: strip everything but digits/dots/commas, turn the
first comma into a dot, `parseFloat`, and keep the value only when it is
a number in `(0, 99999999.99]`; anything else degrades to unset. -/
def coerceBudget (b : Option String) : Option Rat :=
  match b with
  | some s =>
    match parseFloatJs (replaceFirstComma (stripNonNumeric s)) with
    | some v => if v ≤ (99999999.99 : Rat) ∧ 0 < v then some v else none
    | none => none
  | none => none

inductive RowOutcome
  | created
  | skippedTitle
  | errorMissingTitle
  | errorException
deriving DecidableEq, Repr

/-- Accumulator of the row loops (`created`, `skipped`, `errors`, and the
evolving database). -/
structure BatchAcc where
  db : DB
  created : Nat
  skipped : Nat
  errors : List String
deriving Repr

/-- One iteration of the requisition-upload row loop.  `failMsg = some m`
models the `storage.createQuotationRequest` await throwing with message
`m` (the only effectful statement inside this row's `try`); the `catch`
records the row error and keeps going. -/
def processQuotationRow (userId : String) (now : Int) (year month : Nat)
    (failMsg : Option String) (acc : BatchAcc) (i : Nat) (row : SheetRow) :
    BatchAcc × RowOutcome :=
  let titleResolved := resolveTitle row
  -- Skip header/metadata rows
  let title := (titleResolved.map jsTrim).getD ""
  if titleSkip title then
    ({ acc with skipped := acc.skipped + 1 }, .skippedTitle)
  else if (match titleResolved with
           | none => true
           | some v => jsTrim v = "") then
    -- Validate required fields (unreachable after the skip check; kept
    -- because the handler has the branch)
    ({ acc with
        errors := acc.errors ++
          ["Linha " ++ natToStr (i + 2) ++
           ": Título é obrigatório (colunas disponíveis: " ++
           joinSep ", " (row.map fun kv => kv.1) ++ ")"]
        skipped := acc.skipped + 1 }, .errorMissingTitle)
  else
    match failMsg with
    | some m =>
      ({ acc with
          errors := acc.errors ++
            ["Linha " ++ natToStr (i + 2) ++ ": Erro ao processar dados - " ++ m]
          skipped := acc.skipped + 1 }, .errorException)
    | none =>
      let payload : InsertQuotationRequest :=
        { requesterId := userId
          title := jsTrim (titleResolved.getD "")
          description := getColumnValue row descriptionNames
          department := some ((getColumnValue row departmentNames).getD
            "Material de limpeza - CCL Cajamar")
          costCenter := some ((getColumnValue row costCenterNames).getD
            "CCL Cajamar")
          urgency := some ((getColumnValue row urgencyNames).getD "normal")
          totalBudget := coerceBudget (getColumnValue row budgetNames)
          status := some .rascunho }
      let out := createQuotationRequest acc.db payload now year month
      ({ acc with db := out.1, created := acc.created + 1 }, .created)

structure UploadResponse where
  processed : Nat
  created : Nat
  skipped : Nat
  errors : List String
deriving DecidableEq, Repr

/-- POST `/api/upload/quotation-spreadsheet`: the row loop over the parsed
rows, the response (errors truncated to the first 10), and the single
batch audit log.  The untruncated error list is also returned. -/
def uploadQuotationSpreadsheetRoute (db : DB) (userId : String) (now : Int)
    (year month : Nat) (failAt : Nat → Option String) (filename : String)
    (rows : List SheetRow) : DB × UploadResponse × List String :=
  let final := rows.enum.foldl
    (fun acc p =>
      (processQuotationRow userId now year month (failAt p.1) acc p.1 p.2).1)
    { db := db, created := 0, skipped := 0, errors := [] }
  let response : UploadResponse :=
    { processed := rows.length
      created := final.created
      skipped := final.skipped
      errors := final.errors.take 10 }
  let db2 := createAuditLog final.db (some userId) "upload"
    "quotation_request" "bulk_upload" filename now
  (db2, response, final.errors)

/-! ### Supplier-quotation upload -/

/-- Modelled from the spec: `storage.getSupplierByName` is called by the
supplier-quotations upload handler but is implemented nowhere in the
repository's storage layer (it is absent from `IStorage` and from both
implementations); §4.3 step 6 describes it as an exact-name lookup,
modelled as the first supplier row whose name equals the given name. -/
def getSupplierByName (db : DB) (name : String) : Option Supplier :=
  db.suppliers.find? fun s => s.name = name

/-- Modelled from the spec:
`storage.getSupplierQuotationByRequestAndSupplier` is called by the
supplier-quotations upload handler but is implemented nowhere in the
repository's storage layer; §4.3 step 6 keys the upsert on the
request+supplier pair, modelled as the first quotation row matching both
ids. -/
def getSupplierQuotationByRequestAndSupplier (db : DB)
    (quotationRequestId supplierId : String) : Option SupplierQuotation :=
  db.quotations.find? fun q =>
    q.quotationRequestId = quotationRequestId ∧ q.supplierId = supplierId

def supplierNameCols : List String :=
  ["Fornecedor", "Supplier", "Nome do Fornecedor"]

def quotationNumberCols : List String :=
  ["Número da Cotação", "Quotation Number", "Numero Cotacao"]

def requestIdCols : List String :=
  ["Requisição ID", "Request ID", "ID da Requisição"]

def productNameCols : List String :=
  ["Produto/Serviço", "Product", "Produto", "Serviço", "Item"]

def quantityCols : List String := ["Quantidade", "Quantity", "Qtd"]

def unitPriceCols : List String :=
  ["Preço Unitário", "Unit Price", "Preco Unitario"]

def totalPriceCols : List String :=
  ["Preço Total", "Total Price", "Preco Total"]

def deliveryTimeCols : List String :=
  ["Prazo de Entrega (dias)", "Delivery Time", "Prazo Entrega"]

def paymentTermsCols : List String :=
  ["Condições de Pagamento", "Payment Terms", "Condicoes Pagamento"]

def observationsCols : List String := ["Observações", "Observations", "Obs"]

inductive SupplierRowOutcome
  | created
  | skippedMeta
  | errorNumbers
  | errorRequestMissing
  | errorException
deriving DecidableEq, Repr

/-- The metadata/empty skip of the supplier-quotation upload. -/
def supplierRowSkip (supplierName quotationRequestId productName :
    Option String) : Bool :=
  supplierName.isNone || quotationRequestId.isNone || productName.isNone ||
  jsIncludes (supplierName.getD "") ":" ||
  jsIncludes (jsToUpper (supplierName.getD "")) "EMPRESA" ||
  jsIncludes (jsToUpper (supplierName.getD "")) "CONTATO"

/-- One iteration of the supplier-quotation upload row loop.  `failMsg`
models a storage await throwing inside the row's `try` (caught per row).
A `NaN` delivery time reaching the insert is modelled as the database
rejecting the row (`integer` column), hence the exception path. -/
def processSupplierQuotationRow (now : Int) (failMsg : Option String)
    (acc : BatchAcc) (i : Nat) (row : SheetRow) :
    BatchAcc × SupplierRowOutcome :=
  let supplierName := getColumnValue row supplierNameCols
  let quotationNumber := getColumnValue row quotationNumberCols
  let quotationRequestId := getColumnValue row requestIdCols
  let productName := getColumnValue row productNameCols
  let quantity := getColumnValue row quantityCols
  let unitPrice := getColumnValue row unitPriceCols
  let totalPrice := getColumnValue row totalPriceCols
  let deliveryTime := getColumnValue row deliveryTimeCols
  let paymentTerms := getColumnValue row paymentTermsCols
  let observations := getColumnValue row observationsCols
  -- Skip rows with metadata or empty essential data (no error entry)
  if supplierRowSkip supplierName quotationRequestId productName then
    ({ acc with skipped := acc.skipped + 1 }, .skippedMeta)
  else
    -- Validate numeric fields
    let numericQuantity :=
      parseFloatJs (replaceFirstComma (quantity.getD "0"))
    let numericUnitPrice :=
      parseFloatJs (replaceFirstComma (unitPrice.getD "0"))
    let numericTotalPrice :=
      parseFloatJs (replaceFirstComma (totalPrice.getD "0"))
    let numericDeliveryTime := parseIntJs (deliveryTime.getD "0")
    if numericQuantity.isNone || numericUnitPrice.isNone ||
        numericTotalPrice.isNone then
      ({ acc with
          errors := acc.errors ++
            ["Linha " ++ natToStr (i + 1) ++ ": Valores numéricos inválidos"]
          skipped := acc.skipped + 1 }, .errorNumbers)
    else
      match failMsg with
      | some m =>
        ({ acc with
            errors := acc.errors ++ ["Linha " ++ natToStr (i + 1) ++ ": " ++ m]
            skipped := acc.skipped + 1 }, .errorException)
      | none =>
        -- Find or create supplier
        let supOut :=
          match getSupplierByName acc.db (supplierName.getD "") with
          | some s => (acc.db, s)
          | none =>
            createSupplier acc.db
              { name := supplierName.getD "", status := some .ativo } now
        let db1 := supOut.1
        let supplier := supOut.2
        -- Verify quotation request exists
        match getQuotationRequest db1 (quotationRequestId.getD "") with
        | none =>
          ({ acc with
              db := db1
              errors := acc.errors ++
                ["Linha " ++ natToStr (i + 1) ++ ": Requisição " ++
                 quotationRequestId.getD "" ++ " não encontrada"]
              skipped := acc.skipped + 1 }, .errorRequestMissing)
        | some _ =>
          -- Create or update supplier quotation
          match getSupplierQuotationByRequestAndSupplier db1
              (quotationRequestId.getD "") supplier.id with
          | some existingQuotation =>
            let db2 := updateSupplierQuotation db1 existingQuotation.id
              { quotationNumber := some
                  (match quotationNumber with
                   | some n => some n
                   | none => existingQuotation.quotationNumber)
                deliveryTime := some
                  (match numericDeliveryTime with
                   | some n =>
                     if n ≠ 0 then some n else existingQuotation.deliveryTime
                   | none => existingQuotation.deliveryTime)
                paymentTerms := some
                  (match paymentTerms with
                   | some t => some t
                   | none => existingQuotation.paymentTerms)
                totalAmount := some (numericTotalPrice.getD 0)
                observations := some
                  (match observations with
                   | some o => some o
                   | none => existingQuotation.observations) }
            ({ acc with db := db2, created := acc.created + 1 }, .created)
          | none =>
            match numericDeliveryTime with
            | none =>
              -- deliveryTime is NaN: the integer-column insert fails and
              -- the catch records the row (modelled database rejection)
              ({ acc with
                  db := db1
                  errors := acc.errors ++
                    ["Linha " ++ natToStr (i + 1) ++
                     ": invalid input for integer column"]
                  skipped := acc.skipped + 1 }, .errorException)
            | some dt =>
              let out := createSupplierQuotation db1
                { quotationRequestId := quotationRequestId.getD ""
                  supplierId := supplier.id
                  quotationNumber := some (quotationNumber.getD
                    ("COT-" ++ intToStrJs now))
                  deliveryTime := some dt
                  paymentTerms := some (paymentTerms.getD "A vista")
                  totalAmount := numericTotalPrice.getD 0
                  observations := observations } now
              ({ acc with db := out.1, created := acc.created + 1 }, .created)

/-- POST `/api/upload/supplier-quotations`: row loop, response with
errors truncated to 10, and the batch audit log. -/
def uploadSupplierQuotationsRoute (db : DB) (userId : String) (now : Int)
    (failAt : Nat → Option String) (filename : String)
    (rows : List SheetRow) : DB × UploadResponse × List String :=
  let final := rows.enum.foldl
    (fun acc p => (processSupplierQuotationRow now (failAt p.1) acc p.1 p.2).1)
    { db := db, created := 0, skipped := 0, errors := [] }
  let response : UploadResponse :=
    { processed := rows.length
      created := final.created
      skipped := final.skipped
      errors := final.errors.take 10 }
  let db2 := createAuditLog final.db (some userId) "upload"
    "supplier_quotation" "bulk_upload" filename now
  (db2, response, final.errors)

/-! ## Spec-side definitions

The next two definitions follow the specification's words rather than
the code; they exist only to be compared with the code-derived
definitions above. -/

/-- Follows the spec (§4.4): the allowed status transitions
`draft → in_quotation → awaiting_approval → approved | rejected`, with
`cancelled` reachable from any non-terminal state. -/
def specTransition : QuotationStatus → QuotationStatus → Bool
  | .rascunho, .em_cotacao => true
  | .em_cotacao, .aguardando_aprovacao => true
  | .aguardando_aprovacao, .aprovado => true
  | .aguardando_aprovacao, .rejeitado => true
  | .rascunho, .cancelado => true
  | .em_cotacao, .cancelado => true
  | .aguardando_aprovacao, .cancelado => true
  | _, _ => false

/-- The numeric sequence carried by a stored request/order number: its
third dash-separated segment, parsed the way the storage layer parses
it. -/
def seqOfNumber (s : String) : Option Int :=
  parseIntJs (((jsSplitDash s).get? 2).getD "")

/-- Follows the claim C3's words: the maximum sequence among the stored
numbers of the `REQ-YYYYMM-` bucket (0 for an empty bucket). -/
def specBucketMaxSeq (existing : List String) (ym : String) : Nat :=
  ((existing.filter fun s => startsWith ("REQ-" ++ ym ++ "-") s).filterMap
    fun s => (seqOfNumber s).map Int.toNat).foldl max 0

/-! ## Sample data for witnesses and counterexamples -/

def sampleRequest : QuotationRequest :=
  { id := "r1", requestNumber := "REQ-202510-001", requesterId := "u1",
    title := "Resmas de papel", description := none, department := none,
    costCenter := none, urgency := "normal", expectedDeliveryDate := none,
    status := .rascunho, totalBudget := none, approvedAmount := none,
    approverId := none, approvedAt := none, notes := none,
    createdAt := 0, updatedAt := 0 }

def emptyDB : DB :=
  { requests := [], quotations := [], orders := [], suppliers := [],
    logs := [], nextId := 0 }

def sampleDB : DB :=
  { emptyDB with requests := [sampleRequest] }

/-- A request already approved, for exercising purchase-order
generation. -/
def approvedRequest : QuotationRequest :=
  { sampleRequest with
    id := "r2"
    requestNumber := "REQ-202510-002"
    status := .aprovado }

/-- A selected quotation promising delivery in 0 days. -/
def zeroDayQuotation : SupplierQuotation :=
  { id := "q1"
    quotationRequestId := "r2"
    supplierId := "s1"
    quotationNumber := none
    validUntil := none
    deliveryTime := some 0
    paymentTerms := none
    totalAmount := 1500
    observations := none
    isSelected := true
    submittedAt := 0 }

def approvedDB : DB :=
  { emptyDB with
    requests := [approvedRequest]
    quotations := [zeroDayQuotation] }

def selectQA : SupplierQuotation :=
  { id := "qa"
    quotationRequestId := "r1"
    supplierId := "s1"
    quotationNumber := none
    validUntil := none
    deliveryTime := none
    paymentTerms := none
    totalAmount := 100
    observations := none
    isSelected := false
    submittedAt := 0 }

def selectQB : SupplierQuotation :=
  { selectQA with
    id := "qb"
    supplierId := "s2"
    totalAmount := 200
    isSelected := true }

def selectDB : DB :=
  { emptyDB with
    requests := [sampleRequest]
    quotations := [selectQA, selectQB] }

/-- The state the select endpoint produces on `selectDB`. -/
def selectOutW : DB × Option SupplierQuotation :=
  match selectSupplierQuotationRoute selectDB "u5" "qa" 11 with
  | .ok p => p
  | .error _ => (selectDB, none)

/-- An error message attributable to a specific row of an `n`-row batch:
it starts with that row's `Linha` label (the handler labels row `i` as
line `i + 2`, accounting for the header row and 1-based display). -/
def attributable (n : Nat) (e : String) : Prop :=
  ∃ i < n, ∃ rest, e = "Linha " ++ natToStr (i + 2) ++ ": " ++ rest


/-- A well-formed supplier-quotation upload row naming an absent
supplier and the existing request `r1`. -/
def rowC5 : SheetRow :=
  [("Fornecedor", "ACME"), ("Requisição ID", "r1"),
   ("Produto/Serviço", "Papel A4"), ("Quantidade", "2"),
   ("Preço Unitário", "5"), ("Preço Total", "10"),
   ("Prazo de Entrega (dias)", "4")]

def accC5 : BatchAcc :=
  { db := sampleDB, created := 0, skipped := 0, errors := [] }

/-- Numeric value of a digit-character list, most significant digit
first (used to compare the stored number strings with the sequence
numbers they encode). -/
def charsVal (l : List Char) : Nat :=
  digitsToNat (l.map fun c => (digitVal c).getD 0)

/-- Two stored February-2026 request numbers, for exercising the number
generator. -/
def dbC3w : DB :=
  { emptyDB with
    requests :=
      [{ sampleRequest with id := "r7", requestNumber := "REQ-202602-007" },
       { sampleRequest with id := "r12", requestNumber := "REQ-202602-012" }] }

/-- Four stored numbers whose top bucket sequence is 999 and whose
lexicographic maximum is the four-digit `1000`. -/
def dbC3c : DB :=
  { emptyDB with
    requests :=
      [{ sampleRequest with id := "ra", requestNumber := "REQ-202510-999" },
       { sampleRequest with id := "rb", requestNumber := "REQ-202510-1000" }] }

/-- A minimal valid creation payload. -/
def pC3 : InsertQuotationRequest :=
  { requesterId := "u1", title := "Papel" }

/-! # Theorems

One theorem per claim of the specification review, with witnesses and
counterexamples as separate closed theorems. -/

/-- C10: POST `/api/quotation-requests/:id/reject` updates only the
status (to `rejeitado`), the approver id, the notes (overwritten with the
supplied rejection reason) and `updatedAt` of the matching request; every
other field, and every other request, is unchanged. -/
theorem rejectRoute_frame (db : DB) (userId reqId reason : String)
    (now : Int) :
    ((rejectRoute db userId reqId (some reason) now).1.requests =
      db.requests.map fun r =>
        if r.id = reqId then
          { r with status := .rejeitado, approverId := some userId,
                   notes := some reason, updatedAt := now }
        else r) ∧
    ∀ r ∈ db.requests, r.id = reqId →
      ∃ r' ∈ (rejectRoute db userId reqId (some reason) now).1.requests,
        r'.status = .rejeitado ∧ r'.approverId = some userId ∧
        r'.notes = some reason ∧ r'.updatedAt = now ∧
        r'.id = r.id ∧ r'.requestNumber = r.requestNumber ∧
        r'.requesterId = r.requesterId ∧ r'.title = r.title ∧
        r'.description = r.description ∧ r'.department = r.department ∧
        r'.costCenter = r.costCenter ∧ r'.urgency = r.urgency ∧
        r'.expectedDeliveryDate = r.expectedDeliveryDate ∧
        r'.totalBudget = r.totalBudget ∧
        r'.approvedAmount = r.approvedAmount ∧
        r'.approvedAt = r.approvedAt ∧ r'.createdAt = r.createdAt := by
  constructor
  · rfl
  · intro r hr hid
    refine ⟨_, List.mem_map.mpr ⟨r, hr, rfl⟩, ?_⟩
    simp [hid, applyRequestPatch]

theorem rejectRoute_frame_witness :
    sampleRequest ∈ sampleDB.requests ∧ sampleRequest.id = "r1" ∧
    ∃ r' ∈ (rejectRoute sampleDB "u7" "r1" (some "sem verba") 9).1.requests,
      r'.status = .rejeitado ∧ r'.approverId = some "u7" ∧
      r'.notes = some "sem verba" ∧ r'.updatedAt = 9 ∧
      r'.id = sampleRequest.id ∧
      r'.requestNumber = sampleRequest.requestNumber ∧
      r'.requesterId = sampleRequest.requesterId ∧
      r'.title = sampleRequest.title ∧
      r'.description = sampleRequest.description ∧
      r'.department = sampleRequest.department ∧
      r'.costCenter = sampleRequest.costCenter ∧
      r'.urgency = sampleRequest.urgency ∧
      r'.expectedDeliveryDate = sampleRequest.expectedDeliveryDate ∧
      r'.totalBudget = sampleRequest.totalBudget ∧
      r'.approvedAmount = sampleRequest.approvedAmount ∧
      r'.approvedAt = sampleRequest.approvedAt ∧
      r'.createdAt = sampleRequest.createdAt :=
  ⟨by simp [sampleDB], rfl,
    (rejectRoute_frame sampleDB "u7" "r1" "sem verba" 9).2 sampleRequest
      (by simp [sampleDB]) rfl⟩

/-- C7: a requisition-upload row whose resolved (trimmed) title is empty,
contains a metadata marker (`EMPRESA:`, `CONTATO:`), or is shorter than 3
characters is counted in `skipped`, not in `created`, and leaves the
database untouched. -/
theorem uploadRow_title_skip (userId : String) (now : Int)
    (year month : Nat) (failMsg : Option String) (acc : BatchAcc) (i : Nat)
    (row : SheetRow)
    (h : ((resolveTitle row).map jsTrim).getD "" = "" ∨
         jsIncludes (((resolveTitle row).map jsTrim).getD "") "EMPRESA:" = true ∨
         jsIncludes (((resolveTitle row).map jsTrim).getD "") "CONTATO:" = true ∨
         (((resolveTitle row).map jsTrim).getD "").length < 3) :
    (processQuotationRow userId now year month failMsg acc i row).2 =
      .skippedTitle ∧
    (processQuotationRow userId now year month failMsg acc i row).1.skipped =
      acc.skipped + 1 ∧
    (processQuotationRow userId now year month failMsg acc i row).1.created =
      acc.created ∧
    (processQuotationRow userId now year month failMsg acc i row).1.db =
      acc.db ∧
    (processQuotationRow userId now year month failMsg acc i row).1.errors =
      acc.errors := by
  have hskip : titleSkip (((resolveTitle row).map jsTrim).getD "") = true := by
    unfold titleSkip
    rcases h with h | h | h | h <;> simp [h]
  simp [processQuotationRow, hskip]

theorem uploadRow_title_skip_witness :
    (jsIncludes (((resolveTitle [("Título", "EMPRESA: ACME LTDA")]).map
        jsTrim).getD "") "EMPRESA:" = true) ∧
    (processQuotationRow "u1" 0 2025 10 none
        { db := emptyDB, created := 0, skipped := 0, errors := [] } 0
        [("Título", "EMPRESA: ACME LTDA")]).2 = .skippedTitle ∧
    (processQuotationRow "u1" 0 2025 10 none
        { db := emptyDB, created := 0, skipped := 0, errors := [] } 0
        [("Título", "EMPRESA: ACME LTDA")]).1.skipped = 0 + 1 ∧
    (processQuotationRow "u1" 0 2025 10 none
        { db := emptyDB, created := 0, skipped := 0, errors := [] } 0
        [("Título", "EMPRESA: ACME LTDA")]).1.created = 0 ∧
    (processQuotationRow "u1" 0 2025 10 none
        { db := emptyDB, created := 0, skipped := 0, errors := [] } 0
        [("Título", "EMPRESA: ACME LTDA")]).1.db = emptyDB ∧
    (processQuotationRow "u1" 0 2025 10 none
        { db := emptyDB, created := 0, skipped := 0, errors := [] } 0
        [("Título", "EMPRESA: ACME LTDA")]).1.errors = [] := by
  have h := uploadRow_title_skip "u1" 0 2025 10 none
    { db := emptyDB, created := 0, skipped := 0, errors := [] } 0
    [("Título", "EMPRESA: ACME LTDA")] (Or.inr (Or.inl (by decide)))
  exact ⟨by decide, h.1, h.2.1, h.2.2.1, h.2.2.2.1, h.2.2.2.2⟩

/-- C8: a requisition-upload row with a title that passes the skip checks
but a budget cell that is unparseable after stripping the non-numeric
noise, or out of range (`> 99999999.99` or not positive), is still
created as a QuotationRequest with `totalBudget` unset, not failed or
counted as an error. -/
theorem uploadRow_bad_budget_created (userId : String) (now : Int)
    (year month : Nat) (acc : BatchAcc) (i : Nat) (row : SheetRow)
    (b : String)
    (htitle : titleSkip (((resolveTitle row).map jsTrim).getD "") = false)
    (hb : getColumnValue row budgetNames = some b)
    (hbad : ∀ v, parseFloatJs (replaceFirstComma (stripNonNumeric b)) = some v →
        ¬(v ≤ (99999999.99 : Rat) ∧ 0 < v)) :
    (processQuotationRow userId now year month none acc i row).2 = .created ∧
    (processQuotationRow userId now year month none acc i row).1.created =
      acc.created + 1 ∧
    (processQuotationRow userId now year month none acc i row).1.skipped =
      acc.skipped ∧
    (processQuotationRow userId now year month none acc i row).1.errors =
      acc.errors ∧
    ∃ r, (processQuotationRow userId now year month none acc i row).1.db.requests
        = acc.db.requests ++ [r] ∧ r.totalBudget = none ∧
        r.status = .rascunho := by
  have hbudget : coerceBudget (getColumnValue row budgetNames) = none := by
    rw [hb]
    unfold coerceBudget
    cases hp : parseFloatJs (replaceFirstComma (stripNonNumeric b)) with
    | none => simp [hp]
    | some v =>
      have := hbad v hp
      simp [hp, this]
  have h2 : (match resolveTitle row with
             | none => true
             | some v => decide (jsTrim v = "")) = false := by
    cases ht : resolveTitle row with
    | none =>
      exfalso
      rw [ht] at htitle
      simp [titleSkip] at htitle
    | some v =>
      simp only [decide_eq_false_iff_not]
      intro hempty
      rw [ht] at htitle
      simp [titleSkip, hempty] at htitle
  simp [processQuotationRow, htitle, h2, hbudget, createQuotationRequest]

theorem uploadRow_bad_budget_created_witness :
    titleSkip (((resolveTitle [("Título", "Canetas azuis"), ("Valor", "abc")]).map
      jsTrim).getD "") = false ∧
    getColumnValue [("Título", "Canetas azuis"), ("Valor", "abc")] budgetNames =
      some "abc" ∧
    (processQuotationRow "u1" 0 2025 10 none
        { db := emptyDB, created := 0, skipped := 0, errors := [] } 0
        [("Título", "Canetas azuis"), ("Valor", "abc")]).2 = .created ∧
    ∃ r, (processQuotationRow "u1" 0 2025 10 none
        { db := emptyDB, created := 0, skipped := 0, errors := [] } 0
        [("Título", "Canetas azuis"), ("Valor", "abc")]).1.db.requests =
        emptyDB.requests ++ [r] ∧ r.totalBudget = none ∧
        r.status = .rascunho := by
  have h := uploadRow_bad_budget_created "u1" 0 2025 10
    { db := emptyDB, created := 0, skipped := 0, errors := [] } 0
    [("Título", "Canetas azuis"), ("Valor", "abc")] "abc" (by decide) (by decide)
    (by intro v hv; rw [show parseFloatJs (replaceFirstComma
      (stripNonNumeric "abc")) = none from rfl] at hv; cases hv)
  exact ⟨by decide, by decide, h.1, h.2.2.2.2⟩

/-! Helper lemmas: which tables each storage operation leaves alone. -/

theorem createAuditLog_requests (db : DB) (u : Option String)
    (a e i c : String) (n : Int) :
    (createAuditLog db u a e i c n).requests = db.requests := rfl

theorem createSupplierQuotation_requests (db : DB)
    (p : InsertSupplierQuotation) (n : Int) :
    (createSupplierQuotation db p n).1.requests = db.requests := rfl

theorem updateQuotationRequest_status (db : DB) (id : String)
    (p : QuotationRequestPatch) (now : Int) (st : QuotationStatus)
    (hst : p.status = some st) :
    ∀ r' ∈ (updateQuotationRequest db id p now).requests,
      r'.id = id → r'.status = st := by
  intro r' hmem hid
  obtain ⟨r0, hr0, rfl⟩ := List.mem_map.mp hmem
  by_cases h0 : r0.id = id
  · simp [h0, applyRequestPatch, hst]
  · rw [if_neg h0] at hid ⊢
    exact absurd hid h0

/-- C4 counterexample: POST approve on a request still in `rascunho`
moves its status straight to `aprovado`, a transition §4.4 does not
list (the endpoint never checks the current status). -/
theorem approve_unguarded_counterexample :
    (getQuotationRequest sampleDB "r1").map (fun r => r.status) =
      some .rascunho ∧
    ((approveRoute sampleDB "u2" "r1" none 5).1.requests.find? fun r =>
        r.id = "r1").map (fun r => r.status) = some .aprovado ∧
    specTransition .rascunho .aprovado = false := by
  exact ⟨rfl, rfl, rfl⟩

theorem createSupplierQuotationRoute_requests (db : DB) (uid reqId : String)
    (payload : InsertSupplierQuotation) (now : Int) (ef : Bool) :
    (createSupplierQuotationRoute db uid reqId payload now ef).db.requests =
      match getQuotationRequest db reqId with
      | some r0 =>
        if r0.status = QuotationStatus.rascunho then
          (updateQuotationRequest db reqId
            { status := some .em_cotacao } now).requests
        else db.requests
      | none => db.requests := by
  cases hx : getQuotationRequest db reqId with
  | none =>
    simp only [createSupplierQuotationRoute, createAuditLog_requests,
      createSupplierQuotation_requests]
    rw [show getQuotationRequest (createAuditLog (createSupplierQuotation db
      { payload with quotationRequestId := reqId } now).1 (some uid) "create"
      "supplier_quotation" (createSupplierQuotation db
      { payload with quotationRequestId := reqId } now).2.id
      "validatedData" now) reqId = getQuotationRequest db reqId from rfl, hx]
    rfl
  | some r0 =>
    simp only [createSupplierQuotationRoute, createAuditLog_requests,
      createSupplierQuotation_requests]
    rw [show getQuotationRequest (createAuditLog (createSupplierQuotation db
      { payload with quotationRequestId := reqId } now).1 (some uid) "create"
      "supplier_quotation" (createSupplierQuotation db
      { payload with quotationRequestId := reqId } now).2.id
      "validatedData" now) reqId = getQuotationRequest db reqId from rfl, hx]
    by_cases hs : r0.status = QuotationStatus.rascunho
    · simp only [if_pos hs]
      rfl
    · simp only [if_neg hs]
      rfl

/-- C4 amended: the approve and reject endpoints set the status
unconditionally, from any current state; the select endpoint likewise
never checks the current status; only the auto-advance fired by
supplier-quotation creation is guarded (advance to `em_cotacao` when the
request is still `rascunho`, requests untouched otherwise).  Statuses can
therefore move outside the §4.4 transitions. -/
theorem status_transitions_amended (db : DB) (uid reqId : String)
    (amt : Option Rat) (reason : Option String)
    (payload : InsertSupplierQuotation) (now : Int) (emailFails : Bool)
    (r : QuotationRequest) (hr : getQuotationRequest db reqId = some r) :
    (∀ r' ∈ (approveRoute db uid reqId amt now).1.requests,
        r'.id = reqId → r'.status = .aprovado) ∧
    (∀ r' ∈ (rejectRoute db uid reqId reason now).1.requests,
        r'.id = reqId → r'.status = .rejeitado) ∧
    (r.status ≠ .rascunho →
      (createSupplierQuotationRoute db uid reqId payload now
        emailFails).db.requests = db.requests) ∧
    (r.status = .rascunho →
      ∀ r' ∈ (createSupplierQuotationRoute db uid reqId payload now
          emailFails).db.requests,
        r'.id = reqId → r'.status = .em_cotacao) := by
  have hroute := createSupplierQuotationRoute_requests db uid reqId payload
    now emailFails
  refine ⟨?_, ?_, ?_, ?_⟩
  · exact updateQuotationRequest_status db reqId _ now .aprovado rfl
  · exact updateQuotationRequest_status db reqId _ now .rejeitado rfl
  · intro hne
    rw [hroute, hr]
    simp only [if_neg hne]
  · intro hdraft
    intro r' hmem hid
    rw [hroute, hr] at hmem
    simp only [if_pos hdraft] at hmem
    exact updateQuotationRequest_status _ reqId
      { status := some .em_cotacao } now .em_cotacao rfl r' hmem hid

theorem status_transitions_amended_witness :
    getQuotationRequest sampleDB "r1" = some sampleRequest ∧
    sampleRequest.status = .rascunho ∧
    ∀ r' ∈ (createSupplierQuotationRoute sampleDB "u3" "r1"
        { quotationRequestId := "r1", supplierId := "s1", totalAmount := 10 }
        7 false).db.requests,
      r'.id = "r1" → r'.status = .em_cotacao :=
  ⟨rfl, rfl,
    (status_transitions_amended sampleDB "u3" "r1" none none
      { quotationRequestId := "r1", supplierId := "s1", totalAmount := 10 }
      7 false sampleRequest rfl).2.2.2 rfl⟩

theorem createAuditLog_orders (db : DB) (u : Option String)
    (a e i c : String) (n : Int) :
    (createAuditLog db u a e i c n).orders = db.orders := rfl

/-- C2 counterexample: on an approved request whose selected quotation
carries `deliveryTime = 0` days, generation succeeds but the purchase
order's `expectedDeliveryDate` is null — not `now + 0 days` as the claim
requires (`deliveryTime ? ... : null` treats 0 as falsy). -/
theorem generatePO_zero_deliveryTime_counterexample :
    (getQuotationRequest approvedDB "r2").map (fun r => r.status) =
      some .aprovado ∧
    ((getSupplierQuotations approvedDB "r2").find? fun q =>
      q.isSelected).map (fun q => q.deliveryTime) = some (some 0) ∧
    (generatePurchaseOrderRoute approvedDB "u2" "r2" none 1000 2025 10).map
      (fun out => out.2.expectedDeliveryDate) = Except.ok none ∧
    (Except.ok none : Except Nat (Option Int)) ≠
      Except.ok (some (1000 + 0 * (24 * 60 * 60 * 1000) : Int)) := by
  exact ⟨rfl, rfl, rfl, by simp⟩

/-- C2 amended: generate-purchase-order answers 400 and creates nothing
when the request is missing or not `aprovado` or when no quotation of it
is selected; otherwise it creates and returns a purchase order copying
`totalAmount` and `supplierId` from the selected quotation, whose
`expectedDeliveryDate` is `now + deliveryTime` days when `deliveryTime`
is present and nonzero, and null when `deliveryTime` is absent or 0. -/
theorem generatePurchaseOrder_spec (db : DB) (uid reqId : String)
    (addr : Option String) (now : Int) (year month : Nat) :
    (getQuotationRequest db reqId = none →
      generatePurchaseOrderRoute db uid reqId addr now year month =
        .error 400) ∧
    (∀ r, getQuotationRequest db reqId = some r → r.status ≠ .aprovado →
      generatePurchaseOrderRoute db uid reqId addr now year month =
        .error 400) ∧
    (∀ r, getQuotationRequest db reqId = some r → r.status = .aprovado →
      (getSupplierQuotations db reqId).find? (fun q => q.isSelected) = none →
      generatePurchaseOrderRoute db uid reqId addr now year month =
        .error 400) ∧
    (∀ r q, getQuotationRequest db reqId = some r → r.status = .aprovado →
      (getSupplierQuotations db reqId).find? (fun q => q.isSelected) =
        some q →
      ∃ db' po, generatePurchaseOrderRoute db uid reqId addr now year month =
          .ok (db', po) ∧
        po.totalAmount = q.totalAmount ∧ po.supplierId = q.supplierId ∧
        po.quotationRequestId = reqId ∧ po.status = "pendente" ∧
        po.deliveryAddress = addr ∧
        po.expectedDeliveryDate =
          (match q.deliveryTime with
           | some dt =>
             if dt ≠ 0 then some (now + dt * (24 * 60 * 60 * 1000)) else none
           | none => none) ∧
        db'.orders = db.orders ++ [po]) := by
  refine ⟨?_, ?_, ?_, ?_⟩
  · intro h
    unfold generatePurchaseOrderRoute
    rw [h]
  · intro r h hne
    unfold generatePurchaseOrderRoute
    rw [h]
    simp only [if_pos hne]
  · intro r h hst hnone
    unfold generatePurchaseOrderRoute
    rw [h]
    simp only [hst, hnone]
    rfl
  · intro r q h hst hsel
    unfold generatePurchaseOrderRoute
    rw [h]
    simp only [hst, hsel]
    refine ⟨_, _, rfl, rfl, rfl, rfl, rfl, rfl, rfl, rfl⟩

theorem generatePurchaseOrder_spec_witness :
    getQuotationRequest approvedDB "r2" = some approvedRequest ∧
    approvedRequest.status = .aprovado ∧
    (getSupplierQuotations approvedDB "r2").find? (fun q => q.isSelected) =
      some zeroDayQuotation ∧
    ∃ db' po,
      generatePurchaseOrderRoute approvedDB "u2" "r2" none 1000 2025 10 =
        .ok (db', po) ∧
      po.totalAmount = zeroDayQuotation.totalAmount ∧
      po.supplierId = zeroDayQuotation.supplierId ∧
      po.quotationRequestId = "r2" ∧ po.status = "pendente" ∧
      po.deliveryAddress = none ∧
      po.expectedDeliveryDate =
        (match zeroDayQuotation.deliveryTime with
         | some dt =>
           if dt ≠ 0 then some (1000 + dt * (24 * 60 * 60 * 1000)) else none
         | none => none) ∧
      db'.orders = approvedDB.orders ++ [po] :=
  ⟨rfl, rfl, rfl,
    (generatePurchaseOrder_spec approvedDB "u2" "r2" none 1000 2025
      10).2.2.2 approvedRequest zeroDayQuotation rfl rfl rfl⟩

theorem createSupplierQuotationRoute_quotations (db : DB) (uid reqId : String)
    (payload : InsertSupplierQuotation) (now : Int) (ef : Bool) :
    (createSupplierQuotationRoute db uid reqId payload now ef).db.quotations =
      db.quotations ++
        [(createSupplierQuotation db
          { payload with quotationRequestId := reqId } now).2] := by
  cases hx : getQuotationRequest db reqId with
  | none =>
    simp only [createSupplierQuotationRoute]
    rw [show getQuotationRequest (createAuditLog (createSupplierQuotation db
      { payload with quotationRequestId := reqId } now).1 (some uid) "create"
      "supplier_quotation" (createSupplierQuotation db
      { payload with quotationRequestId := reqId } now).2.id
      "validatedData" now) reqId = getQuotationRequest db reqId from rfl, hx]
    rfl
  | some r0 =>
    simp only [createSupplierQuotationRoute]
    rw [show getQuotationRequest (createAuditLog (createSupplierQuotation db
      { payload with quotationRequestId := reqId } now).1 (some uid) "create"
      "supplier_quotation" (createSupplierQuotation db
      { payload with quotationRequestId := reqId } now).2.id
      "validatedData" now) reqId = getQuotationRequest db reqId from rfl, hx]
    by_cases hs : r0.status = QuotationStatus.rascunho
    · simp only [if_pos hs]
      rfl
    · simp only [if_neg hs]
      rfl

theorem createSupplierQuotationRoute_recipients (db : DB) (uid reqId : String)
    (payload : InsertSupplierQuotation) (now : Int) (ef : Bool) :
    (createSupplierQuotationRoute db uid reqId payload now ef).recipients =
      if (getSupplierQuotations
            (createSupplierQuotationRoute db uid reqId payload now ef).db
            reqId).length = 1 ∧ (getQuotationRequest db reqId).isSome then
        ((getSuppliers
            (createSupplierQuotationRoute db uid reqId payload now
              ef).db).filter fun s => s.status = .ativo).take 5
      else [] := rfl

/-- C9: creating a supplier quotation for a request still in `rascunho`
advances the request to `em_cotacao`; when the created quotation is the
first one for that request, the notification email is addressed to at
most the first 5 active suppliers; and an email failure does not fail
the creation — the endpoint still answers 201 with the same created
quotation and the same database. -/
theorem createSupplierQuotation_first_draft (db : DB) (uid reqId : String)
    (payload : InsertSupplierQuotation) (now : Int) (r : QuotationRequest)
    (hr : getQuotationRequest db reqId = some r)
    (hdraft : r.status = .rascunho) :
    (∀ r' ∈ (createSupplierQuotationRoute db uid reqId payload now
        false).db.requests, r'.id = reqId → r'.status = .em_cotacao) ∧
    (createSupplierQuotationRoute db uid reqId payload now false).code =
      201 ∧
    (createSupplierQuotationRoute db uid reqId payload now true).code =
      201 ∧
    (getSupplierQuotations db reqId = [] →
      (createSupplierQuotationRoute db uid reqId payload now
          false).recipients =
        ((getSuppliers ((createSupplierQuotationRoute db uid reqId payload
            now false).db)).filter fun s => s.status = .ativo).take 5 ∧
      (createSupplierQuotationRoute db uid reqId payload now
        false).recipients.length ≤ 5) ∧
    (createSupplierQuotationRoute db uid reqId payload now true).db =
      (createSupplierQuotationRoute db uid reqId payload now false).db ∧
    (createSupplierQuotationRoute db uid reqId payload now true).quotation =
      (createSupplierQuotationRoute db uid reqId payload now
        false).quotation ∧
    (createSupplierQuotationRoute db uid reqId payload now
        true).recipients =
      (createSupplierQuotationRoute db uid reqId payload now
        false).recipients := by
  refine ⟨?_, rfl, rfl, ?_, rfl, rfl, rfl⟩
  · intro r' hmem hid
    rw [createSupplierQuotationRoute_requests db uid reqId payload now false,
      hr] at hmem
    simp only [if_pos hdraft] at hmem
    exact updateQuotationRequest_status db reqId
      { status := some .em_cotacao } now .em_cotacao rfl r' hmem hid
  · intro hfirst
    have hlen : (getSupplierQuotations
        (createSupplierQuotationRoute db uid reqId payload now false).db
        reqId).length = 1 := by
      unfold getSupplierQuotations at hfirst ⊢
      rw [createSupplierQuotationRoute_quotations db uid reqId payload now
        false, List.filter_append, hfirst]
      simp [createSupplierQuotation]
    have hcond : (getSupplierQuotations
        (createSupplierQuotationRoute db uid reqId payload now false).db
        reqId).length = 1 ∧ (getQuotationRequest db reqId).isSome :=
      ⟨hlen, by rw [hr]; rfl⟩
    constructor
    · rw [createSupplierQuotationRoute_recipients db uid reqId payload now
        false, if_pos hcond]
    · rw [createSupplierQuotationRoute_recipients db uid reqId payload now
        false, if_pos hcond]
      exact List.length_take_le 5 _

theorem createSupplierQuotation_first_draft_witness :
    getQuotationRequest sampleDB "r1" = some sampleRequest ∧
    sampleRequest.status = .rascunho ∧
    getSupplierQuotations sampleDB "r1" = [] ∧
    (∀ r' ∈ (createSupplierQuotationRoute sampleDB "u4" "r1"
        { quotationRequestId := "r1", supplierId := "s1", totalAmount := 42 }
        3 false).db.requests, r'.id = "r1" → r'.status = .em_cotacao) ∧
    (createSupplierQuotationRoute sampleDB "u4" "r1"
      { quotationRequestId := "r1", supplierId := "s1", totalAmount := 42 }
      3 false).recipients.length ≤ 5 ∧
    (createSupplierQuotationRoute sampleDB "u4" "r1"
        { quotationRequestId := "r1", supplierId := "s1", totalAmount := 42 }
        3 true).db =
      (createSupplierQuotationRoute sampleDB "u4" "r1"
        { quotationRequestId := "r1", supplierId := "s1", totalAmount := 42 }
        3 false).db := by
  have h := createSupplierQuotation_first_draft sampleDB "u4" "r1"
    { quotationRequestId := "r1", supplierId := "s1", totalAmount := 42 }
    3 sampleRequest rfl rfl
  exact ⟨rfl, rfl, rfl, h.1, (h.2.2.2.1 rfl).2, h.2.2.2.2.1⟩

/-! Characterization of the unselect loop of the select endpoint. -/

theorem applyQuotationPatch_id (p : SupplierQuotationPatch)
    (q : SupplierQuotation) : (applyQuotationPatch p q).id = q.id := rfl

theorem foldl_unselect_quotations (qid : String) :
    ∀ (qs : List SupplierQuotation) (db : DB),
      (qs.foldl
        (fun d q =>
          if q.id ≠ qid then
            updateSupplierQuotation d q.id { isSelected := some false }
          else d)
        db).quotations =
      db.quotations.map fun r =>
        if r.id ≠ qid ∧ r.id ∈ qs.map (fun x => x.id) then
          { r with isSelected := false }
        else r := by
  intro qs
  induction qs with
  | nil =>
    intro db
    simp
  | cons a t ih =>
    intro db
    rw [List.foldl_cons]
    by_cases ha : a.id = qid
    · rw [if_neg (by simp [ha])]
      rw [ih db]
      refine List.map_congr_left fun r _ => ?_
      by_cases hr : r.id = qid
      · simp [hr]
      · have : (r.id ∈ (a :: t).map fun x => x.id) ↔
            (r.id ∈ t.map fun x => x.id) := by
          simp only [List.map_cons, List.mem_cons]
          constructor
          · rintro (h | h)
            · exact absurd (h.trans ha) hr
            · exact h
          · exact Or.inr
        simp only [hr, this, ne_eq, not_false_iff, true_and]
    · rw [if_pos (by simp [ha])]
      rw [ih]
      rw [show (updateSupplierQuotation db a.id
          { isSelected := some false }).quotations =
          db.quotations.map fun r =>
            if r.id = a.id then { r with isSelected := false } else r from by
        simp [updateSupplierQuotation, applyQuotationPatch]]
      rw [List.map_map]
      refine List.map_congr_left fun r _ => ?_
      show (fun r2 =>
        if r2.id ≠ qid ∧ r2.id ∈ t.map (fun x => x.id) then
          { r2 with isSelected := false } else r2)
        (if r.id = a.id then { r with isSelected := false } else r) = _
      by_cases h1 : r.id = a.id
      · have hrq : r.id ≠ qid := by rw [h1]; exact ha
        simp only [if_pos h1]
        by_cases h2 : r.id ∈ t.map (fun x => x.id)
        · simp [hrq, h2, h1, ha]
        · simp [hrq, h2, h1, ha]
      · simp only [if_neg h1]
        have : (r.id ∈ (a :: t).map fun x => x.id) ↔
            (r.id ∈ t.map fun x => x.id) := by
          simp only [List.map_cons, List.mem_cons]
          exact ⟨fun h => h.resolve_left h1, Or.inr⟩
        simp only [this]

theorem foldl_unselect_requests (qid : String) :
    ∀ (qs : List SupplierQuotation) (db : DB),
      (qs.foldl
        (fun d q =>
          if q.id ≠ qid then
            updateSupplierQuotation d q.id { isSelected := some false }
          else d)
        db).requests = db.requests := by
  intro qs
  induction qs with
  | nil => intro db; rfl
  | cons a t ih =>
    intro db
    rw [List.foldl_cons]
    by_cases ha : a.id ≠ qid
    · rw [if_pos (by simp [ha])]
      exact ih _
    · rw [if_neg (by simp at ha; simp [ha])]
      exact ih _

/-- With pairwise-distinct ids, the rows matching a member's id form a
singleton. -/
theorem length_filter_id_eq (l : List SupplierQuotation)
    (hnd : (l.map fun x => x.id).Nodup) (q : SupplierQuotation)
    (hq : q ∈ l) :
    (l.filter fun x => x.id = q.id).length = 1 := by
  induction l with
  | nil => cases hq
  | cons a t ih =>
    rw [List.map_cons, List.nodup_cons] at hnd
    rcases List.mem_cons.mp hq with rfl | hqt
    · rw [List.filter_cons_of_pos (by simp)]
      have : t.filter (fun x => x.id = q.id) = [] := by
        rw [List.filter_eq_nil_iff]
        intro x hx
        simp only [decide_eq_true_eq]
        intro hxe
        exact hnd.1 (hxe ▸ List.mem_map_of_mem (fun y => y.id) hx)
      rw [this]
      rfl
    · have hne : a.id ≠ q.id := by
        intro he
        exact hnd.1 (he ▸ List.mem_map_of_mem (fun y => y.id) hqt)
      rw [List.filter_cons_of_neg (by simp [hne])]
      exact ih hnd.2 hqt

/-- C1: POST `/api/supplier-quotations/:id/select`, run with no
concurrent requests on a database whose quotation ids are pairwise
distinct (the primary key), leaves exactly one selected quotation among
the request's quotations — the chosen one — copies its `totalAmount`
into the request's `totalBudget`, and advances the request to
`aguardando_aprovacao`. -/
theorem selectRoute_exactly_one_selected (db : DB) (uid qid : String)
    (now : Int) (q : SupplierQuotation) (db' : DB)
    (ret : Option SupplierQuotation)
    (hq : getSupplierQuotation db qid = some q)
    (hids : (db.quotations.map fun x => x.id).Nodup)
    (hrun : selectSupplierQuotationRoute db uid qid now = .ok (db', ret)) :
    (∀ r ∈ db'.quotations, r.quotationRequestId = q.quotationRequestId →
        (r.isSelected = true ↔ r.id = qid)) ∧
    ((db'.quotations.filter fun r =>
        r.quotationRequestId = q.quotationRequestId ∧ r.isSelected).length
      = 1) ∧
    (∀ r ∈ db'.requests, r.id = q.quotationRequestId →
        r.status = .aguardando_aprovacao ∧
        r.totalBudget = some q.totalAmount) := by
  have hqmem : q ∈ db.quotations := List.mem_of_find?_eq_some hq
  have hqid : q.id = qid := by
    have := List.find?_some hq
    simpa using this
  unfold selectSupplierQuotationRoute at hrun
  rw [hq] at hrun
  simp only [Except.ok.injEq, Prod.mk.injEq] at hrun
  obtain ⟨hdb, -⟩ := hrun
  -- the final list of quotations, as a single map over the initial one
  have hquot : db'.quotations =
      (((getSupplierQuotations db q.quotationRequestId).foldl
        (fun d q2 =>
          if q2.id ≠ qid then
            updateSupplierQuotation d q2.id { isSelected := some false }
          else d)
        db).quotations).map fun r =>
          if r.id = qid then { r with isSelected := true } else r := by
    rw [← hdb]
    simp [createAuditLog, updateQuotationRequest, updateSupplierQuotation,
      applyQuotationPatch]
  rw [foldl_unselect_quotations qid _ db, List.map_map] at hquot
  have hreqs : db'.requests = db.requests.map fun r =>
      if r.id = q.quotationRequestId then
        applyRequestPatch
          { status := some .aguardando_aprovacao
            totalBudget := some (some q.totalAmount) } now r
      else r := by
    have h0 : db'.requests =
        (((getSupplierQuotations db q.quotationRequestId).foldl
          (fun d q2 =>
            if q2.id ≠ qid then
              updateSupplierQuotation d q2.id { isSelected := some false }
            else d)
          db).requests).map fun r =>
            if r.id = q.quotationRequestId then
              applyRequestPatch
                { status := some .aguardando_aprovacao
                  totalBudget := some (some q.totalAmount) } now r
            else r := by
      rw [← hdb]
      simp [createAuditLog, updateQuotationRequest, updateSupplierQuotation]
    rw [foldl_unselect_requests qid _ db] at h0
    exact h0
  refine ⟨?_, ?_, ?_⟩
  · -- exactly the chosen row is selected among the request's rows
    intro r hmem hreq
    rw [hquot] at hmem
    obtain ⟨r0, hr0, rfl⟩ := List.mem_map.mp hmem
    by_cases h0 : r0.id = qid
    · simp [h0]
    · have hreq0 : r0.quotationRequestId = q.quotationRequestId := by
        by_cases hmem2 : ∃ a ∈ getSupplierQuotations db
            q.quotationRequestId, a.id = r0.id
        · obtain ⟨a, ha, haid⟩ := hmem2
          have haR := (List.mem_filter.mp ha).2
          have haa : a = r0 :=
            List.inj_on_of_nodup_map hids (List.mem_filter.mp ha).1
              hr0 haid
          rw [← haa]
          simpa using haR
        · simpa [h0, hmem2] using hreq
      have hmemall : ∃ a ∈ getSupplierQuotations db
          q.quotationRequestId, a.id = r0.id :=
        ⟨r0, List.mem_filter.mpr ⟨hr0, by simp [hreq0]⟩, rfl⟩
      simp [h0, hmemall]
  · -- the selected rows of the request form a singleton
    rw [hquot, List.filter_map, List.length_map]
    have hfc : ∀ pf : SupplierQuotation → Bool,
        (∀ a ∈ db.quotations, pf a = decide (a.id = q.id)) →
        (db.quotations.filter pf).length = 1 := by
      intro pf hpf
      rw [List.filter_congr hpf]
      exact length_filter_id_eq db.quotations hids q hqmem
    apply hfc
    intro a ha
    by_cases h0 : a.id = qid
    · have haq : a = q :=
        List.inj_on_of_nodup_map hids ha hqmem (by rw [h0, hqid])
      subst haq
      simp [h0]
    · have hq0 : ¬(a.id = q.id) := by rw [hqid]; exact h0
      by_cases hR : a.quotationRequestId = q.quotationRequestId
      · have hmemall : ∃ b ∈ getSupplierQuotations db
            q.quotationRequestId, b.id = a.id :=
          ⟨a, List.mem_filter.mpr ⟨ha, by simp [hR]⟩, rfl⟩
        simp [h0, hmemall, hq0]
      · by_cases hmem2 : ∃ b ∈ getSupplierQuotations db
            q.quotationRequestId, b.id = a.id
        · simp [h0, hmem2, hR, hq0]
        · simp [h0, hmem2, hR, hq0]
  · -- the request carries the copied budget and the new status
    intro r hmem hid
    rw [hreqs] at hmem
    obtain ⟨r0, hr0, rfl⟩ := List.mem_map.mp hmem
    by_cases h0 : r0.id = q.quotationRequestId
    · simp [h0, applyRequestPatch]
    · rw [if_neg h0] at hid ⊢
      exact absurd hid h0

theorem selectRoute_exactly_one_selected_witness :
    getSupplierQuotation selectDB "qa" = some selectQA ∧
    (selectDB.quotations.map fun x => x.id).Nodup ∧
    selectSupplierQuotationRoute selectDB "u5" "qa" 11 =
      .ok (selectOutW.1, selectOutW.2) ∧
    ((selectOutW.1.quotations.filter fun r =>
        r.quotationRequestId = selectQA.quotationRequestId ∧
        r.isSelected).length = 1) ∧
    (∀ r ∈ selectOutW.1.requests, r.id = selectQA.quotationRequestId →
        r.status = .aguardando_aprovacao ∧
        r.totalBudget = some selectQA.totalAmount) := by
  have h := selectRoute_exactly_one_selected selectDB "u5" "qa" 11 selectQA
    selectOutW.1 selectOutW.2 rfl (by decide) rfl
  exact ⟨rfl, by decide, rfl, h.2.1, h.2.2⟩

/-! ## C6: batch behaviour of the requisition upload -/

theorem processQuotationRow_step (uid : String) (now : Int)
    (year month : Nat) (failMsg : Option String) (acc : BatchAcc) (i : Nat)
    (row : SheetRow) :
    ((processQuotationRow uid now year month failMsg acc i row).1.created +
      (processQuotationRow uid now year month failMsg acc i row).1.skipped =
      acc.created + acc.skipped + 1) ∧
    (∃ tail, (processQuotationRow uid now year month failMsg acc i
        row).1.db.requests = acc.db.requests ++ tail) ∧
    ((processQuotationRow uid now year month failMsg acc i row).1.errors =
        acc.errors ∨
      ∃ rest, (processQuotationRow uid now year month failMsg acc i
          row).1.errors =
        acc.errors ++ ["Linha " ++ natToStr (i + 2) ++ ": " ++ rest]) := by
  simp only [processQuotationRow]
  by_cases h1 : titleSkip (((resolveTitle row).map jsTrim).getD "") = true
  · rw [if_pos h1]
    refine ⟨?_, ⟨[], ?_⟩, Or.inl ?_⟩
    · show acc.created + (acc.skipped + 1) = acc.created + acc.skipped + 1
      omega
    · show acc.db.requests = acc.db.requests ++ []
      simp
    · rfl
  · rw [if_neg h1]
    by_cases h2 : (match resolveTitle row with
                   | none => true
                   | some v => decide (jsTrim v = "")) = true
    · rw [if_pos h2]
      refine ⟨?_, ⟨[], ?_⟩, Or.inr
        ⟨"Título é obrigatório (colunas disponíveis: " ++
          joinSep ", " (row.map fun kv => kv.1) ++ ")", ?_⟩⟩
      · show acc.created + (acc.skipped + 1) = acc.created + acc.skipped + 1
        omega
      · show acc.db.requests = acc.db.requests ++ []
        simp
      · show acc.errors ++ ["Linha " ++ natToStr (i + 2) ++
          ": Título é obrigatório (colunas disponíveis: " ++
          joinSep ", " (row.map fun kv => kv.1) ++ ")"] = _
        simp only [String.append_assoc, List.append_cancel_left_eq,
          List.cons.injEq, and_true]
        rw [show (": Título é obrigatório (colunas disponíveis: " :
          String) = ": " ++ "Título é obrigatório (colunas disponíveis: "
          from rfl, String.append_assoc]
    · rw [if_neg h2]
      cases failMsg with
      | some m =>
        refine ⟨?_, ⟨[], ?_⟩, Or.inr
          ⟨"Erro ao processar dados - " ++ m, ?_⟩⟩
        · show acc.created + (acc.skipped + 1) =
            acc.created + acc.skipped + 1
          omega
        · show acc.db.requests = acc.db.requests ++ []
          simp
        · show acc.errors ++ ["Linha " ++ natToStr (i + 2) ++
            ": Erro ao processar dados - " ++ m] = _
          simp only [String.append_assoc, List.append_cancel_left_eq,
            List.cons.injEq, and_true]
          rw [show (": Erro ao processar dados - " : String) =
            ": " ++ "Erro ao processar dados - " from rfl, String.append_assoc]
      | none =>
        refine ⟨?_, ⟨_, rfl⟩, Or.inl rfl⟩
        show acc.created + 1 + acc.skipped = acc.created + acc.skipped + 1
        omega

theorem foldQuotationRows_inv (uid : String) (now : Int) (year month : Nat)
    (failAt : Nat → Option String) (N : Nat) :
    ∀ (ps : List (Nat × SheetRow)) (acc : BatchAcc),
      (∀ p ∈ ps, p.1 < N) →
      ((ps.foldl (fun a p =>
          (processQuotationRow uid now year month (failAt p.1) a p.1
            p.2).1) acc).created +
        (ps.foldl (fun a p =>
          (processQuotationRow uid now year month (failAt p.1) a p.1
            p.2).1) acc).skipped =
        acc.created + acc.skipped + ps.length) ∧
      (∃ tail, (ps.foldl (fun a p =>
          (processQuotationRow uid now year month (failAt p.1) a p.1
            p.2).1) acc).db.requests = acc.db.requests ++ tail) ∧
      ((∀ e ∈ acc.errors, attributable N e) →
        ∀ e ∈ (ps.foldl (fun a p =>
          (processQuotationRow uid now year month (failAt p.1) a p.1
            p.2).1) acc).errors, attributable N e) := by
  intro ps
  induction ps with
  | nil =>
    intro acc hps
    exact ⟨by simp, ⟨[], by simp⟩, fun h => by simpa using h⟩
  | cons p t ih =>
    intro acc hps
    rw [List.foldl_cons]
    have hstep := processQuotationRow_step uid now year month (failAt p.1)
      acc p.1 p.2
    have hiht := ih (processQuotationRow uid now year month (failAt p.1)
      acc p.1 p.2).1 (fun x hx => hps x (List.mem_cons_of_mem p hx))
    refine ⟨?_, ?_, ?_⟩
    · rw [hiht.1, hstep.1, List.length_cons]
      omega
    · obtain ⟨t1, ht1⟩ := hstep.2.1
      obtain ⟨t2, ht2⟩ := hiht.2.1
      exact ⟨t1 ++ t2, by rw [ht2, ht1, List.append_assoc]⟩
    · intro hacc
      refine hiht.2.2 ?_
      rcases hstep.2.2 with he | ⟨rest, he⟩
      · rw [he]; exact hacc
      · rw [he]
        intro e hmem
        rcases List.mem_append.mp hmem with h | h
        · exact hacc e h
        · refine ⟨p.1, hps p (List.mem_cons_self p t), rest, ?_⟩
          simpa using h

theorem enumFrom_fst_lt (l : List α) :
    ∀ (n : Nat), ∀ p ∈ l.enumFrom n, p.1 < n + l.length := by
  induction l with
  | nil => intro n p hp; cases hp
  | cons a t ih =>
    intro n p hp
    rcases List.mem_cons.mp hp with rfl | hp2
    · simp
    · have := ih (n + 1) p hp2
      simp only [List.length_cons]
      omega

/-- C6 amended: a failure while processing one requisition-upload row
never aborts the batch — every row is counted (`created + skipped =
processed = rows`), and all requests created before a later failing row
remain in the database; every row whose processing raises an error or
fails validation contributes an errors entry naming its row index, but
(a) rows skipped by the metadata/title filter are counted in `skipped`
with no errors entry, and (b) the response truncates the error list to
its first 10 entries. -/
theorem uploadBatch_partial_success (db : DB) (uid : String) (now : Int)
    (year month : Nat) (failAt : Nat → Option String) (filename : String)
    (rows : List SheetRow) :
    ((uploadQuotationSpreadsheetRoute db uid now year month failAt filename
      rows).2.1.processed = rows.length) ∧
    ((uploadQuotationSpreadsheetRoute db uid now year month failAt filename
        rows).2.1.created +
      (uploadQuotationSpreadsheetRoute db uid now year month failAt filename
        rows).2.1.skipped = rows.length) ∧
    (∃ tail, (uploadQuotationSpreadsheetRoute db uid now year month failAt
      filename rows).1.requests = db.requests ++ tail) ∧
    ((uploadQuotationSpreadsheetRoute db uid now year month failAt filename
        rows).2.1.errors =
      ((uploadQuotationSpreadsheetRoute db uid now year month failAt
        filename rows).2.2).take 10) ∧
    (∀ e ∈ (uploadQuotationSpreadsheetRoute db uid now year month failAt
        filename rows).2.2, attributable rows.length e) := by
  have hinv := foldQuotationRows_inv uid now year month failAt rows.length
    rows.enum { db := db, created := 0, skipped := 0, errors := [] }
    (by
      intro p hp
      have := enumFrom_fst_lt rows 0 p hp
      simpa using this)
  simp only [uploadQuotationSpreadsheetRoute]
  refine ⟨by trivial, ?_, ?_, by trivial, ?_⟩
  · rw [hinv.1]
    simp [List.enum_length]
  · rw [createAuditLog_requests]
    simpa using hinv.2.1
  · refine hinv.2.2 ?_
    intro e he
    simp at he

/-- C6 counterexample: a one-row batch whose row is a metadata line
(`EMPRESA:`) is counted in `skipped` with an empty `errors` array — the
skip is not attributable to any row index through the response. -/
theorem uploadBatch_skip_unattributed_counterexample :
    (uploadQuotationSpreadsheetRoute emptyDB "u1" 0 2025 10 (fun _ => none)
      "planilha.xlsx" [[("Título", "EMPRESA: ACME LTDA")]]).2.1.skipped =
      1 ∧
    (uploadQuotationSpreadsheetRoute emptyDB "u1" 0 2025 10 (fun _ => none)
      "planilha.xlsx" [[("Título", "EMPRESA: ACME LTDA")]]).2.1.errors =
      [] := by
  exact ⟨rfl, rfl⟩

theorem uploadBatch_partial_success_witness :
    ((uploadQuotationSpreadsheetRoute emptyDB "u1" 0 2025 10 (fun _ => none)
      "f.xlsx" [[("Título", "EMPRESA: ACME LTDA")],
                [("Título", "Canetas azuis")]]).2.1.created +
     (uploadQuotationSpreadsheetRoute emptyDB "u1" 0 2025 10 (fun _ => none)
      "f.xlsx" [[("Título", "EMPRESA: ACME LTDA")],
                [("Título", "Canetas azuis")]]).2.1.skipped = 2) ∧
    (∃ tail, (uploadQuotationSpreadsheetRoute emptyDB "u1" 0 2025 10
      (fun _ => none) "f.xlsx" [[("Título", "EMPRESA: ACME LTDA")],
                [("Título", "Canetas azuis")]]).1.requests =
      emptyDB.requests ++ tail) ∧
    (∀ e ∈ (uploadQuotationSpreadsheetRoute emptyDB "u1" 0 2025 10
      (fun _ => none) "f.xlsx" [[("Título", "EMPRESA: ACME LTDA")],
                [("Título", "Canetas azuis")]]).2.2,
      attributable 2 e) := by
  have h := uploadBatch_partial_success emptyDB "u1" 0 2025 10
    (fun _ => none) "f.xlsx"
    [[("Título", "EMPRESA: ACME LTDA")], [("Título", "Canetas azuis")]]
  exact ⟨h.2.1, h.2.2.1, h.2.2.2.2⟩

/-! ## C5: row processing of the supplier-quotation upload -/

/-- C5: a supplier-quotation upload row that passes the metadata/empty
checks and the numeric validation (and whose delivery-time cell parses)
resolves the named supplier by exact-name lookup, creating an `ativo`
supplier when absent; if the referenced quotation request does not
exist, the row is recorded as a row error and counted skipped;
otherwise the row is counted created, and the quotation for the
request+supplier pair is updated when one exists and inserted
otherwise.  The spec-modelled lookups `getSupplierByName` and
`getSupplierQuotationByRequestAndSupplier` stand for storage methods
the route calls but the repository never implements. -/
theorem supplierQuotationRow_upsert (now : Int) (acc : BatchAcc) (i : Nat)
    (row : SheetRow) (sn rid pn : String) (tp : Rat) (dt : Int)
    (hsn : getColumnValue row supplierNameCols = some sn)
    (hrid : getColumnValue row requestIdCols = some rid)
    (hpn : getColumnValue row productNameCols = some pn)
    (hcolon : jsIncludes sn ":" = false)
    (hm1 : jsIncludes (jsToUpper sn) "EMPRESA" = false)
    (hm2 : jsIncludes (jsToUpper sn) "CONTATO" = false)
    (hq : (parseFloatJs (replaceFirstComma
      ((getColumnValue row quantityCols).getD "0"))).isSome = true)
    (hup : (parseFloatJs (replaceFirstComma
      ((getColumnValue row unitPriceCols).getD "0"))).isSome = true)
    (htp : parseFloatJs (replaceFirstComma
      ((getColumnValue row totalPriceCols).getD "0")) = some tp)
    (hdt : parseIntJs ((getColumnValue row deliveryTimeCols).getD "0") =
      some dt) :
    -- when the referenced request does not exist: row error, skipped,
    -- no quotation written (though a missing supplier is still created)
    (getQuotationRequest acc.db rid = none →
      (processSupplierQuotationRow now none acc i row).2 =
        .errorRequestMissing ∧
      (processSupplierQuotationRow now none acc i row).1.skipped =
        acc.skipped + 1 ∧
      (processSupplierQuotationRow now none acc i row).1.created =
        acc.created ∧
      (processSupplierQuotationRow now none acc i row).1.db.quotations =
        acc.db.quotations ∧
      (processSupplierQuotationRow now none acc i row).1.errors =
        acc.errors ++ ["Linha " ++ natToStr (i + 1) ++ ": Requisição " ++
          rid ++ " não encontrada"]) ∧
    -- supplier resolution when the supplier already exists
    (∀ r s, getQuotationRequest acc.db rid = some r →
      getSupplierByName acc.db sn = some s →
      (processSupplierQuotationRow now none acc i row).2 = .created ∧
      (processSupplierQuotationRow now none acc i row).1.created =
        acc.created + 1 ∧
      (processSupplierQuotationRow now none acc i row).1.skipped =
        acc.skipped ∧
      (processSupplierQuotationRow now none acc i row).1.errors =
        acc.errors ∧
      (processSupplierQuotationRow now none acc i row).1.db.suppliers =
        acc.db.suppliers ∧
      (∀ ex, getSupplierQuotationByRequestAndSupplier acc.db rid s.id =
          some ex →
        (processSupplierQuotationRow now none acc i
            row).1.db.quotations.length = acc.db.quotations.length ∧
        (∃ q2 ∈ (processSupplierQuotationRow now none acc i
            row).1.db.quotations, q2.id = ex.id ∧ q2.totalAmount = tp ∧
          q2.quotationRequestId = ex.quotationRequestId ∧
          q2.supplierId = ex.supplierId) ∧
        (∀ q2 ∈ acc.db.quotations, q2.id ≠ ex.id →
          q2 ∈ (processSupplierQuotationRow now none acc i
            row).1.db.quotations)) ∧
      (getSupplierQuotationByRequestAndSupplier acc.db rid s.id = none →
        ∃ nq, (processSupplierQuotationRow now none acc i
            row).1.db.quotations = acc.db.quotations ++ [nq] ∧
          nq.quotationRequestId = rid ∧ nq.supplierId = s.id ∧
          nq.totalAmount = tp ∧ nq.deliveryTime = some dt)) ∧
    -- supplier resolution when the supplier is absent: create it, then
    -- upsert against the fresh supplier's id
    (∀ r, getQuotationRequest acc.db rid = some r →
      getSupplierByName acc.db sn = none →
      (processSupplierQuotationRow now none acc i row).2 = .created ∧
      (processSupplierQuotationRow now none acc i row).1.created =
        acc.created + 1 ∧
      (processSupplierQuotationRow now none acc i row).1.skipped =
        acc.skipped ∧
      (processSupplierQuotationRow now none acc i row).1.db.suppliers =
        acc.db.suppliers ++
          [(createSupplier acc.db { name := sn, status := some .ativo }
            now).2] ∧
      (createSupplier acc.db { name := sn, status := some .ativo }
        now).2.name = sn ∧
      (createSupplier acc.db { name := sn, status := some .ativo }
        now).2.status = .ativo ∧
      ((getSupplierQuotationByRequestAndSupplier acc.db rid
          (createSupplier acc.db { name := sn, status := some .ativo }
            now).2.id = none →
        ∃ nq, (processSupplierQuotationRow now none acc i
            row).1.db.quotations = acc.db.quotations ++ [nq] ∧
          nq.quotationRequestId = rid ∧
          nq.supplierId = (createSupplier acc.db
            { name := sn, status := some .ativo } now).2.id ∧
          nq.totalAmount = tp ∧ nq.deliveryTime = some dt))) := by
  have hskip : supplierRowSkip (some sn) (some rid) (some pn) = false := by
    simp [supplierRowSkip, hcolon, hm1, hm2]
  rcases Option.isSome_iff_exists.mp hq with ⟨vq, hvq⟩
  rcases Option.isSome_iff_exists.mp hup with ⟨vu, hvu⟩
  simp only [processSupplierQuotationRow, hsn, hrid, hpn, hskip, hvq, hvu,
    htp, hdt, Option.isNone_some, Bool.or_self, Bool.or_false,
    Bool.false_eq_true, if_false, Option.getD_some]
  refine ⟨?_, ?_, ?_⟩
  · -- request missing
    intro hmiss
    cases hsup : getSupplierByName acc.db sn with
    | some s =>
      simp only [hsup, hmiss]
      exact ⟨by trivial, by trivial, by trivial, by trivial, by trivial⟩
    | none =>
      simp only [hsup]
      rw [show getQuotationRequest (createSupplier acc.db
        { name := sn, status := some .ativo } now).1 rid =
        getQuotationRequest acc.db rid from rfl, hmiss]
      exact ⟨by trivial, by trivial, by trivial, by trivial, by trivial⟩
  · -- supplier exists
    intro r s hreq hsup
    simp only [hsup, hreq]
    cases hpair : getSupplierQuotationByRequestAndSupplier acc.db rid
        s.id with
    | some ex =>
      simp only [hpair]
      refine ⟨by trivial, by trivial, by trivial, by trivial, by trivial,
        ?_, ?_⟩
      · intro ex2 hpair2
        obtain rfl : ex = ex2 := Option.some.inj hpair2
        refine ⟨by simp [updateSupplierQuotation], ?_, ?_⟩
        · have hexmem : ex ∈ acc.db.quotations :=
            List.mem_of_find?_eq_some hpair
          show ∃ q2 ∈ (updateSupplierQuotation acc.db ex.id _).quotations, _
          simp only [updateSupplierQuotation]
          refine ⟨_, List.mem_map.mpr ⟨ex, hexmem, rfl⟩, ?_, ?_, ?_, ?_⟩ <;>
            simp [applyQuotationPatch]
        · intro q2 hq2 hne
          show _ ∈ (updateSupplierQuotation acc.db ex.id _).quotations
          simp only [updateSupplierQuotation]
          exact List.mem_map.mpr ⟨q2, hq2, by rw [if_neg hne]⟩
      · intro hnone
        cases hnone
    | none =>
      simp only [hpair]
      refine ⟨by trivial, by trivial, by trivial, by trivial, by trivial,
        ?_, ?_⟩
      · intro ex2 hpair2
        cases hpair2
      · intro h0
        exact ⟨_, rfl, rfl, rfl, rfl, rfl⟩
  · -- supplier absent
    intro r hreq hsup
    simp only [hsup]
    rw [show getQuotationRequest (createSupplier acc.db
      { name := sn, status := some .ativo } now).1 rid =
      getQuotationRequest acc.db rid from rfl, hreq]
    rw [show getSupplierQuotationByRequestAndSupplier (createSupplier
      acc.db { name := sn, status := some .ativo } now).1 rid
      (createSupplier acc.db { name := sn, status := some .ativo }
        now).2.id =
      getSupplierQuotationByRequestAndSupplier acc.db rid
      (createSupplier acc.db { name := sn, status := some .ativo }
        now).2.id from rfl]
    cases hpair : getSupplierQuotationByRequestAndSupplier acc.db rid
        (createSupplier acc.db { name := sn, status := some .ativo }
          now).2.id with
    | some ex =>
      simp only [hpair]
      refine ⟨by trivial, by trivial, by trivial,
        by simp [createSupplier, updateSupplierQuotation,
          createSupplierQuotation],
        by trivial, by trivial, ?_⟩
      intro hnone
      cases hnone
    | none =>
      simp only [hpair]
      refine ⟨by trivial, by trivial, by trivial,
        by simp [createSupplier, updateSupplierQuotation,
          createSupplierQuotation],
        by trivial, by trivial, ?_⟩
      intro h0
      exact ⟨_, rfl, rfl, rfl, rfl, rfl⟩

theorem supplierQuotationRow_upsert_witness :
    getQuotationRequest sampleDB "r1" = some sampleRequest ∧
    getSupplierByName sampleDB "ACME" = none ∧
    (processSupplierQuotationRow 99 none accC5 0 rowC5).2 = .created ∧
    (processSupplierQuotationRow 99 none accC5 0 rowC5).1.created =
      0 + 1 ∧
    (processSupplierQuotationRow 99 none accC5 0 rowC5).1.db.suppliers =
      sampleDB.suppliers ++ [(createSupplier sampleDB
        { name := "ACME", status := some .ativo } 99).2] ∧
    (createSupplier sampleDB { name := "ACME", status := some .ativo }
      99).2.name = "ACME" ∧
    ∃ nq, (processSupplierQuotationRow 99 none accC5 0
        rowC5).1.db.quotations = sampleDB.quotations ++ [nq] ∧
      nq.quotationRequestId = "r1" ∧ nq.totalAmount = 10 ∧
      nq.deliveryTime = some 4 := by
  have h := supplierQuotationRow_upsert 99 accC5 0 rowC5 "ACME" "r1"
    "Papel A4" 10 4 (by decide) (by decide) (by decide) (by decide)
    (by decide) (by decide) (by decide) (by decide) (by decide) (by decide)
  have h3 := h.2.2 sampleRequest rfl rfl
  obtain ⟨nq, hnq⟩ := h3.2.2.2.2.2.2 rfl
  exact ⟨rfl, rfl, h3.1, h3.2.1, h3.2.2.2.1, h3.2.2.2.2.1,
    nq, hnq.1, hnq.2.1, hnq.2.2.2.1, hnq.2.2.2.2⟩

/-! ## C3: sequential numbering in createQuotationRequest

The generator takes the lexicographically greatest stored number of the
`REQ-YYYYMM` bucket (`ORDER BY request_number DESC LIMIT 1`) and adds one
to its third dash-separated segment.  The lemmas below relate that string
manipulation to the numeric sequence values. -/

lemma char_eq_of_toNat_eq {a b : Char} (h : a.toNat = b.toNat) : a = b :=
  Char.eq_of_val_eq (UInt32.eq_of_val_eq (Fin.ext h))

lemma digitVal_bounds {c : Char} (h : (digitVal c).isSome) :
    48 ≤ c.toNat ∧ c.toNat ≤ 57 ∧ (digitVal c).getD 0 = c.toNat - 48 := by
  unfold digitVal at *
  by_cases hc : '0' ≤ c ∧ c ≤ '9'
  · rw [if_pos hc]
    exact ⟨hc.1, hc.2, rfl⟩
  · rw [if_neg hc] at h
    simp at h

lemma digitVal_digitCh {d : Nat} (h : d < 10) :
    digitVal (digitCh d) = some d := by
  interval_cases d <;> decide

lemma digitsToNat_foldl (l : List Nat) :
    ∀ a : Nat, l.foldl (fun x d => x * 10 + d) a =
      a * 10 ^ l.length + digitsToNat l := by
  induction l with
  | nil => intro a; simp [digitsToNat]
  | cons d t ih =>
    intro a
    have h1 : (d :: t).foldl (fun x d => x * 10 + d) a
        = t.foldl (fun x d => x * 10 + d) (a * 10 + d) := rfl
    have h2 : digitsToNat (d :: t) = t.foldl (fun x d => x * 10 + d) d := by
      simp [digitsToNat]
    rw [h1, ih (a * 10 + d), h2, ih d, List.length_cons, pow_succ]
    ring

lemma charsVal_cons (c : Char) (l : List Char) :
    charsVal (c :: l) = (digitVal c).getD 0 * 10 ^ l.length + charsVal l := by
  unfold charsVal
  rw [List.map_cons]
  have h2 : digitsToNat ((digitVal c).getD 0
        :: l.map fun x => (digitVal x).getD 0)
      = (l.map fun x => (digitVal x).getD 0).foldl
          (fun x d => x * 10 + d) ((digitVal c).getD 0) := by
    simp [digitsToNat]
  rw [h2, digitsToNat_foldl, List.length_map]

lemma charsVal_append_singleton (l : List Char) (c : Char) :
    charsVal (l ++ [c]) = charsVal l * 10 + (digitVal c).getD 0 := by
  unfold charsVal
  rw [List.map_append]
  unfold digitsToNat
  rw [List.foldl_append]
  simp

lemma charsVal_replicate_zero_append :
    ∀ (k : Nat) (l : List Char),
      charsVal (List.replicate k '0' ++ l) = charsVal l := by
  intro k
  induction k with
  | zero => intro l; rfl
  | succ j ih =>
    intro l
    rw [List.replicate_succ, List.cons_append, charsVal_cons, ih]
    simp
    decide

lemma charsVal_lt_pow : ∀ l : List Char,
    (∀ c ∈ l, (digitVal c).isSome) → charsVal l < 10 ^ l.length := by
  intro l
  induction l with
  | nil => intro _; simp [charsVal, digitsToNat]
  | cons c t ih =>
    intro h
    rw [charsVal_cons]
    have h9 : (digitVal c).getD 0 ≤ 9 := by
      have hb := digitVal_bounds (h c (List.mem_cons_self c t))
      omega
    have ht := ih (fun x hx => h x (List.mem_cons_of_mem c hx))
    rw [List.length_cons, pow_succ]
    calc (digitVal c).getD 0 * 10 ^ t.length + charsVal t
        < (digitVal c).getD 0 * 10 ^ t.length + 10 ^ t.length := by omega
      _ = ((digitVal c).getD 0 + 1) * 10 ^ t.length := by ring
      _ ≤ 10 * 10 ^ t.length := Nat.mul_le_mul_right _ (by omega)
      _ = 10 ^ t.length * 10 := by ring

lemma natToCharsAux_digits :
    ∀ fuel n : Nat, ∀ c ∈ natToCharsAux fuel n, (digitVal c).isSome := by
  intro fuel
  induction fuel with
  | zero => intro n c hc; simp [natToCharsAux] at hc
  | succ f ih =>
    intro n c hc
    cases n with
    | zero => simp [natToCharsAux] at hc
    | succ m =>
      rw [show natToCharsAux (f + 1) (m + 1)
          = natToCharsAux f ((m + 1) / 10) ++ [digitCh ((m + 1) % 10)]
          from rfl] at hc
      rcases List.mem_append.mp hc with h1 | h1
      · exact ih _ _ h1
      · rw [List.mem_singleton.mp h1,
          digitVal_digitCh (Nat.mod_lt _ (by norm_num))]
        rfl

lemma charsVal_natToCharsAux :
    ∀ fuel n : Nat, n ≤ fuel → charsVal (natToCharsAux fuel n) = n := by
  intro fuel
  induction fuel with
  | zero =>
    intro n hn
    have h0 : n = 0 := by omega
    subst h0
    rfl
  | succ f ih =>
    intro n hn
    cases n with
    | zero => rfl
    | succ m =>
      rw [show natToCharsAux (f + 1) (m + 1)
          = natToCharsAux f ((m + 1) / 10) ++ [digitCh ((m + 1) % 10)]
          from rfl]
      rw [charsVal_append_singleton, ih _ (by omega),
        digitVal_digitCh (Nat.mod_lt _ (by norm_num))]
      show (m + 1) / 10 * 10 + (m + 1) % 10 = m + 1
      omega

lemma natToCharsAux_length :
    ∀ (k fuel n : Nat), n < 10 ^ k → (natToCharsAux fuel n).length ≤ k := by
  intro k
  induction k with
  | zero =>
    intro fuel n hn
    norm_num at hn
    have h0 : n = 0 := by omega
    subst h0
    cases fuel <;> simp [natToCharsAux]
  | succ k ih =>
    intro fuel n hn
    cases fuel with
    | zero => simp [natToCharsAux]
    | succ f =>
      cases n with
      | zero => simp [natToCharsAux]
      | succ m =>
        rw [show natToCharsAux (f + 1) (m + 1)
            = natToCharsAux f ((m + 1) / 10) ++ [digitCh ((m + 1) % 10)]
            from rfl, List.length_append]
        have h2 : (m + 1) / 10 < 10 ^ k := by
          rw [Nat.div_lt_iff_lt_mul (by norm_num : (0 : Nat) < 10)]
          rw [pow_succ] at hn
          exact hn
        have h3 := ih f ((m + 1) / 10) h2
        simp only [List.length_singleton]
        omega

lemma natToCharsAux_ne_nil {fuel n : Nat} (h1 : 0 < n) (h2 : n ≤ fuel) :
    natToCharsAux fuel n ≠ [] := by
  cases fuel with
  | zero => omega
  | succ f =>
    cases n with
    | zero => omega
    | succ m =>
      rw [show natToCharsAux (f + 1) (m + 1)
          = natToCharsAux f ((m + 1) / 10) ++ [digitCh ((m + 1) % 10)]
          from rfl]
      simp

lemma natToStr_digits (n : Nat) :
    ∀ c ∈ (natToStr n).data, (digitVal c).isSome := by
  unfold natToStr
  by_cases h : n = 0
  · rw [if_pos h]
    intro c hc
    rw [show ("0" : String).data = ['0'] from rfl] at hc
    rw [List.mem_singleton.mp hc]
    decide
  · rw [if_neg h]
    exact natToCharsAux_digits n n

lemma charsVal_natToStr (n : Nat) : charsVal (natToStr n).data = n := by
  unfold natToStr
  by_cases h : n = 0
  · rw [if_pos h, h]
    decide
  · rw [if_neg h]
    exact charsVal_natToCharsAux n n le_rfl

lemma natToStr_length_le {n k : Nat} (h : n < 10 ^ k) (hk : 0 < k) :
    (natToStr n).data.length ≤ k := by
  unfold natToStr
  by_cases h0 : n = 0
  · rw [if_pos h0, show ("0" : String).data.length = 1 from rfl]
    omega
  · rw [if_neg h0]
    exact natToCharsAux_length k n n h

lemma natToStr_ne_nil (n : Nat) : (natToStr n).data ≠ [] := by
  unfold natToStr
  by_cases h : n = 0
  · rw [if_pos h]
    decide
  · rw [if_neg h]
    exact natToCharsAux_ne_nil (Nat.pos_of_ne_zero h) le_rfl

lemma padStartStr_data (s : String) (n : Nat) (c : Char) :
    (padStartStr s n c).data = List.replicate (n - s.data.length) c ++ s.data :=
  rfl

lemma pad3_digits (n : Nat) :
    ∀ c ∈ (padStartStr (natToStr n) 3 '0').data, (digitVal c).isSome := by
  intro c hc
  rw [padStartStr_data] at hc
  rcases List.mem_append.mp hc with h1 | h1
  · rw [List.eq_of_mem_replicate h1]
    decide
  · exact natToStr_digits n c h1

lemma pad3_val (n : Nat) :
    charsVal (padStartStr (natToStr n) 3 '0').data = n := by
  rw [padStartStr_data, charsVal_replicate_zero_append, charsVal_natToStr]

lemma pad3_length {n : Nat} (h : n ≤ 999) :
    (padStartStr (natToStr n) 3 '0').data.length = 3 := by
  rw [padStartStr_data, List.length_append, List.length_replicate]
  have h2 : (natToStr n).data.length ≤ 3 :=
    natToStr_length_le (by norm_num; omega) (by norm_num)
  omega

lemma pad3_ne_nil (n : Nat) : (padStartStr (natToStr n) 3 '0').data ≠ [] := by
  rw [padStartStr_data]
  intro h
  exact natToStr_ne_nil n (List.append_eq_nil.mp h).2

lemma isWsChar_eq_false {c : Char} (h : 48 ≤ c.toNat) :
    isWsChar c = false := by
  unfold isWsChar
  have h1 : c ≠ ' ' := fun he => by
    rw [he] at h
    exact absurd h (by decide)
  have h2 : c ≠ '\t' := fun he => by
    rw [he] at h
    exact absurd h (by decide)
  have h3 : c ≠ '\n' := fun he => by
    rw [he] at h
    exact absurd h (by decide)
  have h4 : c ≠ '\r' := fun he => by
    rw [he] at h
    exact absurd h (by decide)
  simp [h1, h2, h3, h4]

lemma digit_ne_dash {c : Char} (h : (digitVal c).isSome) : c ≠ '-' := by
  intro he
  have hb := (digitVal_bounds h).1
  rw [he] at hb
  exact absurd hb (by decide)

lemma digit_ne_plus {c : Char} (h : (digitVal c).isSome) : c ≠ '+' := by
  intro he
  have hb := (digitVal_bounds h).1
  rw [he] at hb
  exact absurd hb (by decide)

lemma takeDigits_all :
    ∀ l : List Char, (∀ c ∈ l, (digitVal c).isSome) →
      takeDigits l = (l.map fun c => (digitVal c).getD 0, []) := by
  intro l
  induction l with
  | nil => intro _; rfl
  | cons c t ih =>
    intro h
    have hc := h c (List.mem_cons_self c t)
    obtain ⟨d, hd⟩ := Option.isSome_iff_exists.mp hc
    rw [show takeDigits (c :: t)
        = (match digitVal c with
           | some d => (d :: (takeDigits t).1, (takeDigits t).2)
           | none => ([], c :: t)) from rfl, hd]
    show (d :: (takeDigits t).1, (takeDigits t).2) = _
    rw [ih (fun x hx => h x (List.mem_cons_of_mem c hx))]
    simp [hd]

lemma parseIntJs_digits (l : List Char) (hne : l ≠ [])
    (hd : ∀ c ∈ l, (digitVal c).isSome) :
    parseIntJs ⟨l⟩ = some ((charsVal l : Nat) : Int) := by
  cases l with
  | nil => exact absurd rfl hne
  | cons c t =>
    have hc := hd c (List.mem_cons_self c t)
    have hb := digitVal_bounds hc
    have h1 : dropLeadingWs (c :: t) = c :: t := by
      show (if isWsChar c then dropLeadingWs t else c :: t) = c :: t
      rw [isWsChar_eq_false hb.1]
      rfl
    have h2 := takeDigits_all (c :: t) hd
    have hminus : c ≠ '-' := digit_ne_dash hc
    have hplus : c ≠ '+' := digit_ne_plus hc
    rw [show parseIntJs ⟨c :: t⟩
        = (let cs := dropLeadingWs (c :: t)
           let neg : Bool := cs.head? = some '-'
           let cs2 :=
             if cs.head? = some '-' ∨ cs.head? = some '+' then cs.tail else cs
           let ds := (takeDigits cs2).1
           if ds.isEmpty then none
           else some (if neg then -(digitsToNat ds : Int)
             else (digitsToNat ds : Int))) from rfl]
    simp only [h1, List.head?_cons]
    have hcond : ¬(some c = some '-' ∨ some c = some '+') := by
      simp [hminus, hplus]
    rw [if_neg hcond, h2]
    simp [hminus, charsVal]

lemma string_data_append (a b : String) : (a ++ b).data = a.data ++ b.data :=
  rfl

lemma splitChar_no_sep (sep : Char) :
    ∀ l : List Char, (∀ c ∈ l, c ≠ sep) → splitChar sep l = [l] := by
  intro l
  induction l with
  | nil => intro _; rfl
  | cons c t ih =>
    intro h
    show (if c = sep then [] :: splitChar sep t
      else match splitChar sep t with
        | [] => [[c]]
        | h2 :: t2 => (c :: h2) :: t2) = [c :: t]
    rw [if_neg (h c (List.mem_cons_self c t)),
      ih (fun x hx => h x (List.mem_cons_of_mem c hx))]

lemma splitChar_append (sep : Char) :
    ∀ a b : List Char, (∀ c ∈ a, c ≠ sep) →
      splitChar sep (a ++ sep :: b) = a :: splitChar sep b := by
  intro a
  induction a with
  | nil =>
    intro b _
    show (if sep = sep then [] :: splitChar sep b
      else match splitChar sep b with
        | [] => [[sep]]
        | h2 :: t2 => (sep :: h2) :: t2) = [] :: splitChar sep b
    rw [if_pos rfl]
  | cons c t ih =>
    intro b h
    show (if c = sep then [] :: splitChar sep (t ++ sep :: b)
      else match splitChar sep (t ++ sep :: b) with
        | [] => [[c]]
        | h2 :: t2 => (c :: h2) :: t2) = (c :: t) :: splitChar sep b
    rw [if_neg (h c (List.mem_cons_self c t)),
      ih b (fun x hx => h x (List.mem_cons_of_mem c hx))]

lemma jsSplitDash_three (pre mid post : String)
    (hpre : ∀ c ∈ pre.data, c ≠ '-') (hmid : ∀ c ∈ mid.data, c ≠ '-')
    (hpost : ∀ c ∈ post.data, c ≠ '-') :
    jsSplitDash (pre ++ "-" ++ mid ++ "-" ++ post) = [pre, mid, post] := by
  unfold jsSplitDash
  have hdata : (pre ++ "-" ++ mid ++ "-" ++ post).data
      = pre.data ++ '-' :: (mid.data ++ '-' :: post.data) := by
    simp [string_data_append]
  rw [hdata, splitChar_append '-' pre.data _ hpre,
    splitChar_append '-' mid.data _ hmid,
    splitChar_no_sep '-' post.data hpost]
  rfl

lemma startsWithChars_append_self : ∀ p r : List Char,
    startsWithChars p (p ++ r) = true := by
  intro p
  induction p with
  | nil => intro r; rfl
  | cons c t ih =>
    intro r
    show (decide (c = c) && startsWithChars t (t ++ r)) = true
    simp [ih r]

lemma startsWith_append_self (p r : String) : startsWith p (p ++ r) = true := by
  unfold startsWith
  rw [string_data_append]
  exact startsWithChars_append_self p.data r.data

lemma startsWithChars_of_append : ∀ a b s : List Char,
    startsWithChars (a ++ b) s = true → startsWithChars a s = true := by
  intro a
  induction a with
  | nil => intro b s _; rfl
  | cons c t ih =>
    intro b s h
    cases s with
    | nil => cases h
    | cons d ds =>
      have h2 : (decide (c = d) && startsWithChars (t ++ b) ds) = true := h
      obtain ⟨hcd, hrest⟩ := Bool.and_eq_true_iff.mp h2
      show (decide (c = d) && startsWithChars t ds) = true
      rw [hcd, ih b ds hrest]
      rfl

lemma startsWith_weaken (a b s : String)
    (h : startsWith (a ++ b) s = true) : startsWith a s = true := by
  unfold startsWith at *
  rw [string_data_append] at h
  exact startsWithChars_of_append a.data b.data s.data h

lemma ltChars_irrefl : ∀ l : List Char, ltChars l l = false := by
  intro l
  induction l with
  | nil => rfl
  | cons c t ih =>
    show (if c = c then ltChars t t else decide (c < c)) = false
    rw [if_pos rfl, ih]

lemma ltChars_trans : ∀ x y z : List Char, ltChars x y = true →
    ltChars y z = true → ltChars x z = true := by
  intro x
  induction x with
  | nil =>
    intro y z h1 h2
    cases y with
    | nil => cases h1
    | cons b bs =>
      cases z with
      | nil => cases h2
      | cons c cs => rfl
  | cons a as ih =>
    intro y z h1 h2
    cases y with
    | nil => cases h1
    | cons b bs =>
      cases z with
      | nil => cases h2
      | cons c cs =>
        rw [show ltChars (a :: as) (b :: bs)
            = (if a = b then ltChars as bs else decide (a < b)) from rfl] at h1
        rw [show ltChars (b :: bs) (c :: cs)
            = (if b = c then ltChars bs cs else decide (b < c)) from rfl] at h2
        show (if a = c then ltChars as cs else decide (a < c)) = true
        by_cases hab : a = b
        · subst hab
          rw [if_pos rfl] at h1
          by_cases hac : a = c
          · subst hac
            rw [if_pos rfl] at h2 ⊢
            exact ih bs cs h1 h2
          · rw [if_neg hac] at h2 ⊢
            exact h2
        · rw [if_neg hab] at h1
          have h1n : a.toNat < b.toNat := of_decide_eq_true h1
          by_cases hbc : b = c
          · subst hbc
            rw [if_neg hab]
            exact h1
          · rw [if_neg hbc] at h2
            have h2n : b.toNat < c.toNat := of_decide_eq_true h2
            have hac : a ≠ c := fun he =>
              absurd (congrArg Char.toNat he) (by omega)
            rw [if_neg hac]
            exact decide_eq_true (show a.toNat < c.toNat by omega)

lemma ltChars_total : ∀ x y : List Char, ltChars x y = false →
    ltChars y x = false → x = y := by
  intro x
  induction x with
  | nil =>
    intro y h1 _
    cases y with
    | nil => rfl
    | cons b bs => cases h1
  | cons a as ih =>
    intro y h1 h2
    cases y with
    | nil => cases h2
    | cons b bs =>
      rw [show ltChars (a :: as) (b :: bs)
          = (if a = b then ltChars as bs else decide (a < b)) from rfl] at h1
      rw [show ltChars (b :: bs) (a :: as)
          = (if b = a then ltChars bs as else decide (b < a)) from rfl] at h2
      by_cases hab : a = b
      · subst hab
        rw [if_pos rfl] at h1 h2
        rw [ih bs h1 h2]
      · rw [if_neg hab] at h1
        rw [if_neg (fun he => hab he.symm)] at h2
        have n1 : ¬ a.toNat < b.toNat := of_decide_eq_false h1
        have n2 : ¬ b.toNat < a.toNat := of_decide_eq_false h2
        exact absurd (char_eq_of_toNat_eq (by omega)) hab

lemma ltChars_append_left : ∀ p x y : List Char,
    ltChars (p ++ x) (p ++ y) = ltChars x y := by
  intro p
  induction p with
  | nil => intro x y; rfl
  | cons c t ih =>
    intro x y
    show (if c = c then ltChars (t ++ x) (t ++ y) else decide (c < c))
      = ltChars x y
    rw [if_pos rfl, ih]

lemma ltChars_of_val_lt : ∀ x y : List Char, x.length = y.length →
    (∀ c ∈ x, (digitVal c).isSome) → (∀ c ∈ y, (digitVal c).isSome) →
    charsVal x < charsVal y → ltChars x y = true := by
  intro x
  induction x with
  | nil =>
    intro y hlen _ _ hv
    cases y with
    | nil => exact absurd hv (by norm_num)
    | cons b bs => simp at hlen
  | cons a as ih =>
    intro y hlen hx hy hv
    cases y with
    | nil => simp at hlen
    | cons b bs =>
      have hlen2 : as.length = bs.length := by simpa using hlen
      have hxa := digitVal_bounds (hx a (List.mem_cons_self a as))
      have hyb := digitVal_bounds (hy b (List.mem_cons_self b bs))
      rw [charsVal_cons, charsVal_cons] at hv
      show (if a = b then ltChars as bs else decide (a < b)) = true
      by_cases hab : a = b
      · rw [if_pos hab]
        subst hab
        rw [hlen2] at hv
        exact ih bs hlen2 (fun c hc => hx c (List.mem_cons_of_mem a hc))
          (fun c hc => hy c (List.mem_cons_of_mem a hc))
          (Nat.lt_of_add_lt_add_left hv)
      · rw [if_neg hab]
        have hPbs : charsVal bs < 10 ^ bs.length :=
          charsVal_lt_pow bs (fun c hc => hy c (List.mem_cons_of_mem b hc))
        have hvab : (digitVal a).getD 0 < (digitVal b).getD 0 := by
          by_contra hle
          push_neg at hle
          have hne : (digitVal b).getD 0 ≠ (digitVal a).getD 0 := by
            intro he
            exact hab (char_eq_of_toNat_eq (by omega))
          have hlt : (digitVal b).getD 0 + 1 ≤ (digitVal a).getD 0 := by omega
          have hcontra : (digitVal b).getD 0 * 10 ^ bs.length + charsVal bs
              < (digitVal a).getD 0 * 10 ^ as.length + charsVal as := by
            calc (digitVal b).getD 0 * 10 ^ bs.length + charsVal bs
                < (digitVal b).getD 0 * 10 ^ bs.length + 10 ^ bs.length := by
                  omega
              _ = ((digitVal b).getD 0 + 1) * 10 ^ bs.length := by ring
              _ ≤ (digitVal a).getD 0 * 10 ^ bs.length :=
                  Nat.mul_le_mul_right _ hlt
              _ = (digitVal a).getD 0 * 10 ^ as.length := by rw [hlen2]
              _ ≤ (digitVal a).getD 0 * 10 ^ as.length + charsVal as :=
                  Nat.le_add_right _ _
          omega
        exact decide_eq_true (show a.toNat < b.toNat by omega)

lemma maxString_foldl_spec : ∀ (l : List String) (b : String),
    ∃ m, l.foldl
        (fun acc s =>
          match acc with
          | none => some s
          | some b2 => if ltChars b2.data s.data then some s else some b2)
        (some b) = some m ∧
      (m = b ∨ m ∈ l) ∧ ltChars m.data b.data = false ∧
      ∀ s ∈ l, ltChars m.data s.data = false := by
  intro l
  induction l with
  | nil =>
    intro b
    exact ⟨b, rfl, Or.inl rfl, ltChars_irrefl _, by simp⟩
  | cons s t ih =>
    intro b
    by_cases hbs : ltChars b.data s.data = true
    · obtain ⟨m, hfold, hmem, hmb, hall⟩ := ih s
      refine ⟨m, ?_, ?_, ?_, ?_⟩
      · rw [show (s :: t).foldl
            (fun acc s =>
              match acc with
              | none => some s
              | some b2 => if ltChars b2.data s.data then some s else some b2)
            (some b)
            = t.foldl
              (fun acc s =>
                match acc with
                | none => some s
                | some b2 =>
                  if ltChars b2.data s.data then some s else some b2)
              (if ltChars b.data s.data then some s else some b) from rfl,
          if_pos hbs]
        exact hfold
      · rcases hmem with rfl | hm
        · exact Or.inr (List.mem_cons_self m t)
        · exact Or.inr (List.mem_cons_of_mem s hm)
      · cases hmb2 : ltChars m.data b.data
        · rfl
        · exact absurd (ltChars_trans m.data b.data s.data hmb2 hbs) (by
            rw [hmb]
            simp)
      · intro x hx
        rcases List.mem_cons.mp hx with rfl | hx2
        · exact hmb
        · exact hall x hx2
    · obtain ⟨m, hfold, hmem, hmb, hall⟩ := ih b
      have hbs2 : ltChars b.data s.data = false := by
        cases h0 : ltChars b.data s.data
        · rfl
        · exact absurd h0 hbs
      refine ⟨m, ?_, ?_, hmb, ?_⟩
      · rw [show (s :: t).foldl
            (fun acc s =>
              match acc with
              | none => some s
              | some b2 => if ltChars b2.data s.data then some s else some b2)
            (some b)
            = t.foldl
              (fun acc s =>
                match acc with
                | none => some s
                | some b2 =>
                  if ltChars b2.data s.data then some s else some b2)
              (if ltChars b.data s.data then some s else some b) from rfl,
          if_neg (by rw [hbs2]; simp)]
        exact hfold
      · rcases hmem with rfl | hm
        · exact Or.inl rfl
        · exact Or.inr (List.mem_cons_of_mem s hm)
      · intro x hx
        rcases List.mem_cons.mp hx with rfl | hx2
        · cases hms : ltChars m.data x.data
          · rfl
          · by_cases hsb : ltChars x.data b.data = true
            · exact absurd (ltChars_trans m.data x.data b.data hms hsb) (by
                rw [hmb]
                simp)
            · have hsb2 : ltChars x.data b.data = false := by
                cases h0 : ltChars x.data b.data
                · rfl
                · exact absurd h0 hsb
              have hbx : b.data = x.data := ltChars_total b.data x.data hbs2 hsb2
              rw [← hbx] at hms
              rw [hmb] at hms
              cases hms
        · exact hall x hx2

lemma maxString_eq_some {l : List String} {m : String}
    (h : maxString l = some m) :
    m ∈ l ∧ ∀ s ∈ l, ltChars m.data s.data = false := by
  cases l with
  | nil => cases h
  | cons x rest =>
    obtain ⟨m0, hm0, hmem, hmb, hall⟩ := maxString_foldl_spec rest x
    have hfold : maxString (x :: rest) = some m0 := hm0
    rw [h] at hfold
    obtain rfl : m = m0 := by injection hfold
    constructor
    · rcases hmem with rfl | hm
      · exact List.mem_cons_self m rest
      · exact List.mem_cons_of_mem x hm
    · intro s hs
      rcases List.mem_cons.mp hs with rfl | hs2
      · exact hmb
      · exact hall s hs2

lemma maxString_eq_none {l : List String} (h : maxString l = none) :
    l = [] := by
  cases l with
  | nil => rfl
  | cons x rest =>
    obtain ⟨m0, hm0, _, _, _⟩ := maxString_foldl_spec rest x
    have hfold : maxString (x :: rest) = some m0 := hm0
    rw [h] at hfold
    cases hfold

lemma le_foldl_max : ∀ (l : List Nat) (b a : Nat), a ∈ l ∨ a ≤ b →
    a ≤ l.foldl max b := by
  intro l
  induction l with
  | nil =>
    intro b a h
    rcases h with h | h
    · cases h
    · exact h
  | cons x t ih =>
    intro b a h
    show a ≤ t.foldl max (max b x)
    rcases h with h | h
    · rcases List.mem_cons.mp h with rfl | h2
      · exact ih _ _ (Or.inr (le_max_right b a))
      · exact ih _ _ (Or.inl h2)
    · exact ih _ _ (Or.inr (le_trans h (le_max_left b x)))

lemma foldl_max_le : ∀ (l : List Nat) (b c : Nat), b ≤ c →
    (∀ a ∈ l, a ≤ c) → l.foldl max b ≤ c := by
  intro l
  induction l with
  | nil => intro b c hb _; exact hb
  | cons x t ih =>
    intro b c hb h
    show t.foldl max (max b x) ≤ c
    exact ih _ _ (max_le hb (h x (List.mem_cons_self x t)))
      (fun a ha => h a (List.mem_cons_of_mem x ha))

lemma yearMonthStr_digits (year month : Nat) :
    ∀ c ∈ (yearMonthStr year month).data, (digitVal c).isSome := by
  intro c hc
  unfold yearMonthStr at hc
  rw [string_data_append] at hc
  rcases List.mem_append.mp hc with h1 | h1
  · exact natToStr_digits year c h1
  · rw [padStartStr_data] at h1
    rcases List.mem_append.mp h1 with h2 | h2
    · rw [List.eq_of_mem_replicate h2]
      decide
    · exact natToStr_digits month c h2

lemma intToStrJs_ofNat_succ (n : Nat) :
    intToStrJs ((n : Int) + 1) = natToStr (n + 1) := by
  unfold intToStrJs
  rw [if_neg (by omega : ¬ ((n : Int) + 1 < 0))]
  rw [show ((n : Int) + 1) = ((n + 1 : Nat) : Int) by push_cast; ring,
    Int.natAbs_ofNat]

/-- C3 (counterexample): with stored numbers `REQ-202510-999` and
`REQ-202510-1000`, the bucket's maximum sequence is 1000, but the
generator orders the stored numbers as strings, picks `REQ-202510-999`
as the greatest, and emits the duplicate `REQ-202510-1000` instead of
sequence 1001. -/
theorem createQuotationRequest_seq_counterexample :
    specBucketMaxSeq (dbC3c.requests.map fun r => r.requestNumber)
      (yearMonthStr 2025 10) = 1000 ∧
    (createQuotationRequest dbC3c pC3 0 2025 10).2.requestNumber
      = "REQ-202510-1000" ∧
    (createQuotationRequest dbC3c pC3 0 2025 10).2.requestNumber ≠
      "REQ-" ++ yearMonthStr 2025 10 ++ "-" ++
        padStartStr (natToStr (specBucketMaxSeq
          (dbC3c.requests.map fun r => r.requestNumber)
          (yearMonthStr 2025 10) + 1)) 3 '0' :=
  ⟨by decide, by decide, by decide⟩

/-- C3 (amended): when every stored number of the `REQ-YYYYMM` bucket is
well-formed with a three-digit (≤ 999) sequence, the created request's
number is `REQ-YYYYMM-` followed by the zero-padded successor of the
bucket's maximum sequence (1 for an empty bucket); the string-ordered
`DESC LIMIT 1` lookup only agrees with the numeric maximum under that
equal-width assumption. -/
theorem createQuotationRequest_number_amended (db : DB)
    (p : InsertQuotationRequest) (now : Int) (year month : Nat)
    (H : ∀ s ∈ db.requests.map fun r => r.requestNumber,
      startsWith ("REQ-" ++ yearMonthStr year month) s = true →
      ∃ n : Nat, n ≤ 999 ∧
        s = "REQ-" ++ yearMonthStr year month ++ "-" ++
          padStartStr (natToStr n) 3 '0') :
    (createQuotationRequest db p now year month).2.requestNumber =
      "REQ-" ++ yearMonthStr year month ++ "-" ++
        padStartStr (natToStr (specBucketMaxSeq
          (db.requests.map fun r => r.requestNumber)
          (yearMonthStr year month) + 1)) 3 '0' := by
  have hymd : ∀ c ∈ (yearMonthStr year month).data, c ≠ '-' :=
    fun c hc => digit_ne_dash (yearMonthStr_digits year month c hc)
  have hseq : ∀ s ∈ db.requests.map fun r => r.requestNumber,
      startsWith ("REQ-" ++ yearMonthStr year month) s = true →
      ∃ n : Nat, n ≤ 999 ∧
        s = "REQ-" ++ yearMonthStr year month ++ "-" ++
          padStartStr (natToStr n) 3 '0' ∧
        seqOfNumber s = some ((n : Nat) : Int) := by
    intro s hs hpre
    obtain ⟨n, hn, heq⟩ := H s hs hpre
    refine ⟨n, hn, heq, ?_⟩
    rw [heq]
    unfold seqOfNumber
    rw [show ("REQ-" ++ yearMonthStr year month ++ "-"
          ++ padStartStr (natToStr n) 3 '0')
        = "REQ" ++ "-" ++ yearMonthStr year month ++ "-"
          ++ padStartStr (natToStr n) 3 '0' by
      rw [show ("REQ-" : String) = "REQ" ++ "-" from rfl]]
    rw [jsSplitDash_three "REQ" (yearMonthStr year month)
      (padStartStr (natToStr n) 3 '0') (by decide) hymd
      (fun c hc => digit_ne_dash (pad3_digits n c hc))]
    rw [show ((["REQ", yearMonthStr year month,
          padStartStr (natToStr n) 3 '0'].get? 2).getD "")
        = padStartStr (natToStr n) 3 '0' from rfl]
    have h3 := parseIntJs_digits (padStartStr (natToStr n) 3 '0').data
      (pad3_ne_nil n) (pad3_digits n)
    rw [pad3_val] at h3
    exact h3
  show (match maxString ((db.requests.map fun r => r.requestNumber).filter
      fun s => startsWith ("REQ" ++ "-" ++ yearMonthStr year month) s) with
    | none => "REQ" ++ "-" ++ yearMonthStr year month ++ "-"
        ++ padStartStr (natToStr 1) 3 '0'
    | some last =>
      match parseIntJs (((jsSplitDash last).get? 2).getD "") with
      | none => "REQ" ++ "-" ++ yearMonthStr year month ++ "-NaN"
      | some lastSequence => "REQ" ++ "-" ++ yearMonthStr year month ++ "-"
          ++ padStartStr (intToStrJs (lastSequence + 1)) 3 '0')
    = "REQ-" ++ yearMonthStr year month ++ "-"
        ++ padStartStr (natToStr (specBucketMaxSeq
          (db.requests.map fun r => r.requestNumber)
          (yearMonthStr year month) + 1)) 3 '0'
  rw [show ("REQ" ++ "-" : String) = "REQ-" from rfl]
  cases hmax : maxString ((db.requests.map fun r => r.requestNumber).filter
      fun s => startsWith ("REQ-" ++ yearMonthStr year month) s) with
  | none =>
    have hfilter := maxString_eq_none hmax
    have h2 : (db.requests.map fun r => r.requestNumber).filter
        (fun s => startsWith ("REQ-" ++ yearMonthStr year month ++ "-") s)
        = [] := by
      rw [List.filter_eq_nil_iff]
      intro s hs hdash
      exact (List.filter_eq_nil_iff.mp hfilter s hs)
        (startsWith_weaken ("REQ-" ++ yearMonthStr year month) "-" s hdash)
    rw [show specBucketMaxSeq (db.requests.map fun r => r.requestNumber)
          (yearMonthStr year month)
        = (((db.requests.map fun r => r.requestNumber).filter
            (fun s => startsWith
              ("REQ-" ++ yearMonthStr year month ++ "-") s)).filterMap
          fun s => (seqOfNumber s).map Int.toNat).foldl max 0 from rfl, h2]
    rfl
  | some m =>
    obtain ⟨hmemf, hmaxall⟩ := maxString_eq_some hmax
    obtain ⟨hmE, hmpre⟩ := List.mem_filter.mp hmemf
    obtain ⟨nm, hnm999, hmeq, hmseq⟩ := hseq m hmE hmpre
    show (match parseIntJs (((jsSplitDash m).get? 2).getD "") with
      | none => "REQ-" ++ yearMonthStr year month ++ "-NaN"
      | some lastSequence => "REQ-" ++ yearMonthStr year month ++ "-"
          ++ padStartStr (intToStrJs (lastSequence + 1)) 3 '0')
      = "REQ-" ++ yearMonthStr year month ++ "-"
          ++ padStartStr (natToStr (specBucketMaxSeq
            (db.requests.map fun r => r.requestNumber)
            (yearMonthStr year month) + 1)) 3 '0'
    rw [show parseIntJs (((jsSplitDash m).get? 2).getD "")
        = some ((nm : Nat) : Int) from hmseq]
    show "REQ-" ++ yearMonthStr year month ++ "-"
        ++ padStartStr (intToStrJs ((nm : Int) + 1)) 3 '0'
      = "REQ-" ++ yearMonthStr year month ++ "-"
        ++ padStartStr (natToStr (specBucketMaxSeq
          (db.requests.map fun r => r.requestNumber)
          (yearMonthStr year month) + 1)) 3 '0'
    have hdashm : startsWith ("REQ-" ++ yearMonthStr year month ++ "-") m
        = true := by
      rw [hmeq]
      exact startsWith_append_self ("REQ-" ++ yearMonthStr year month ++ "-")
        (padStartStr (natToStr nm) 3 '0')
    have hmema : nm ∈ ((db.requests.map fun r => r.requestNumber).filter
        (fun s => startsWith
          ("REQ-" ++ yearMonthStr year month ++ "-") s)).filterMap
        fun s => (seqOfNumber s).map Int.toNat := by
      refine List.mem_filterMap.mpr ⟨m, List.mem_filter.mpr ⟨hmE, hdashm⟩, ?_⟩
      rw [hmseq]
      simp
    have hbound : ∀ v ∈ ((db.requests.map fun r => r.requestNumber).filter
        (fun s => startsWith
          ("REQ-" ++ yearMonthStr year month ++ "-") s)).filterMap
        fun s => (seqOfNumber s).map Int.toNat, v ≤ nm := by
      intro v hv
      obtain ⟨s, hsf, hsv⟩ := List.mem_filterMap.mp hv
      obtain ⟨hsE, hsdash⟩ := List.mem_filter.mp hsf
      have hspre : startsWith ("REQ-" ++ yearMonthStr year month) s = true :=
        startsWith_weaken ("REQ-" ++ yearMonthStr year month) "-" s hsdash
      obtain ⟨ns, hns999, hseqs, hsseq⟩ := hseq s hsE hspre
      have hvns : v = ns := by
        rw [hsseq] at hsv
        simp at hsv
        omega
      subst hvns
      by_contra hgt
      push_neg at hgt
      have hlt : ltChars m.data s.data = true := by
        rw [hmeq, hseqs]
        simp only [string_data_append]
        rw [ltChars_append_left]
        exact ltChars_of_val_lt _ _
          (by rw [pad3_length hnm999, pad3_length hns999])
          (pad3_digits nm) (pad3_digits v)
          (by rw [pad3_val, pad3_val]; exact hgt)
      rw [hmaxall s (List.mem_filter.mpr ⟨hsE, hspre⟩)] at hlt
      cases hlt
    have hfold : (((db.requests.map fun r => r.requestNumber).filter
        (fun s => startsWith
          ("REQ-" ++ yearMonthStr year month ++ "-") s)).filterMap
        fun s => (seqOfNumber s).map Int.toNat).foldl max 0 = nm :=
      Nat.le_antisymm
        (foldl_max_le _ 0 nm (Nat.zero_le nm) hbound)
        (le_foldl_max _ 0 nm (Or.inl hmema))
    rw [show specBucketMaxSeq (db.requests.map fun r => r.requestNumber)
          (yearMonthStr year month)
        = (((db.requests.map fun r => r.requestNumber).filter
            (fun s => startsWith
              ("REQ-" ++ yearMonthStr year month ++ "-") s)).filterMap
          fun s => (seqOfNumber s).map Int.toNat).foldl max 0 from rfl,
      hfold, intToStrJs_ofNat_succ]

theorem createQuotationRequest_number_amended_witness :
    (∀ s ∈ dbC3w.requests.map fun r => r.requestNumber,
      startsWith ("REQ-" ++ yearMonthStr 2026 2) s = true →
      ∃ n : Nat, n ≤ 999 ∧
        s = "REQ-" ++ yearMonthStr 2026 2 ++ "-" ++
          padStartStr (natToStr n) 3 '0') ∧
    specBucketMaxSeq (dbC3w.requests.map fun r => r.requestNumber)
      (yearMonthStr 2026 2) = 12 ∧
    (createQuotationRequest dbC3w pC3 0 2026 2).2.requestNumber
      = "REQ-202602-013" ∧
    (createQuotationRequest dbC3w pC3 0 2026 2).2.requestNumber =
      "REQ-" ++ yearMonthStr 2026 2 ++ "-" ++
        padStartStr (natToStr (specBucketMaxSeq
          (dbC3w.requests.map fun r => r.requestNumber)
          (yearMonthStr 2026 2) + 1)) 3 '0' := by
  have hH : ∀ s ∈ dbC3w.requests.map fun r => r.requestNumber,
      startsWith ("REQ-" ++ yearMonthStr 2026 2) s = true →
      ∃ n : Nat, n ≤ 999 ∧
        s = "REQ-" ++ yearMonthStr 2026 2 ++ "-" ++
          padStartStr (natToStr n) 3 '0' := by
    intro s hs _
    rw [show (dbC3w.requests.map fun r => r.requestNumber)
        = ["REQ-202602-007", "REQ-202602-012"] from rfl] at hs
    rcases List.mem_cons.mp hs with rfl | hs2
    · exact ⟨7, by norm_num, by decide⟩
    · rw [List.mem_singleton.mp hs2]
      exact ⟨12, by norm_num, by decide⟩
  exact ⟨hH, by decide, by decide,
    createQuotationRequest_number_amended dbC3w pC3 0 2026 2 hH⟩

end TrustCota
